import Mathlib

/-!
Verification of the os-brick volume encryptors (`os_brick/encryptors/cryptsetup.py`
and `os_brick/encryptors/luks.py`).

The encryptors drive an external `cryptsetup` binary through a privileged
`execute` call.  We embed that shallowly: a run of a method is a function of an
environment `Env` that supplies, for each successive external invocation, the
exit code / stdout / stderr the external tool produced, together with a
`pathExists` predicate standing for `os.path.exists`.  A run returns either a
value or a `PError` (the embedding of `ProcessExecutionError`), the list of
commands actually issued (each with the exit code it got), and the index of the
next unconsumed response.
-/

structure ExecResult where
  exit_code : Int
  stdout : String
  stderr : String
deriving DecidableEq, Repr

/-- Embedding of `processutils.ProcessExecutionError`. -/
structure PError where
  exit_code : Int
  stderr : String
deriving DecidableEq, Repr

/-- One external invocation: the argv list and the optional `process_input`
payload written to the child's stdin. -/
structure Cmd where
  argv : List String
  process_input : Option String
deriving DecidableEq, Repr

/-- What the trace records for each invocation: the command and the exit code
the environment answered with. -/
structure TraceEntry where
  cmd : Cmd
  exit_code : Int
deriving DecidableEq, Repr

/-- The outside world: indexed responses for successive external invocations,
and the filesystem-existence oracle used for `os.path.exists`. -/
structure Env where
  responses : Nat → ExecResult
  pathExists : String → Bool

abbrev M (α : Type) := Env → Nat → Except PError α × List TraceEntry × Nat

def mPure {α : Type} (a : α) : M α := fun _ i => (Except.ok a, [], i)

def mRaise {α : Type} (e : PError) : M α := fun _ i => (Except.error e, [], i)

def mBind {α β : Type} (x : M α) (f : α → M β) : M β := fun env i =>
  match x env i with
  | (Except.error e, t, j) => (Except.error e, t, j)
  | (Except.ok a, t, j) =>
    match f a env j with
    | (r, t2, k) => (r, t ++ t2, k)

/-- Embedding of `try`/`except ProcessExecutionError`: commands issued before
the failure stay in the trace, the handler continues from there. -/
def mCatch {α : Type} (x : M α) (h : PError → M α) : M α := fun env i =>
  match x env i with
  | (Except.ok a, t, j) => (Except.ok a, t, j)
  | (Except.error e, t, j) =>
    match h e env j with
    | (r, t2, k) => (r, t ++ t2, k)

def mAsks {α : Type} (f : Env → α) : M α := fun env i => (Except.ok (f env), [], i)

/-- `check_exit_code` as passed to `processutils.execute`: either an accepted
list of codes, or `False` (accept anything). -/
inductive ExitCheck where
  | codes (l : List Int)
  | noCheck
deriving DecidableEq

def ExitCheck.accepts : ExitCheck → Int → Bool
  | ExitCheck.codes l, e => l.contains e
  | ExitCheck.noCheck, _ => true

/-- One attempt of `self._execute`: consume the next response; if its exit code
is accepted return stdout, otherwise raise `PError`. -/
def executeOnce (cmd : Cmd) (chk : ExitCheck) : M String := fun env i =>
  let r := env.responses i
  if chk.accepts r.exit_code then (Except.ok r.stdout, [⟨cmd, r.exit_code⟩], i + 1)
  else (Except.error ⟨r.exit_code, r.stderr⟩, [⟨cmd, r.exit_code⟩], i + 1)

/-- `self._execute` with `attempts=n`: retry on failure, surfacing the last
failure once the attempts are exhausted (as `oslo.concurrency` does). -/
def executeAttempts : Nat → Cmd → ExitCheck → M String
  | 0, cmd, chk => executeOnce cmd chk
  | 1, cmd, chk => executeOnce cmd chk
  | n + 2, cmd, chk => fun env i =>
    match executeOnce cmd chk env i with
    | (Except.ok s, t, j) => (Except.ok s, t, j)
    | (Except.error _, t, j) =>
      match executeAttempts (n + 1) cmd chk env j with
      | (r, t2, k) => (r, t ++ t2, k)

/-! ### Python string helpers used by the source -/

/-- Split a character list at every separator, keeping empty fields. -/
def splitCharList (sep : Char → Bool) : List Char → List (List Char)
  | [] => [[]]
  | c :: cs =>
    if sep c then [] :: splitCharList sep cs
    else
      match splitCharList sep cs with
      | [] => [[c]]
      | f :: rest => (c :: f) :: rest

/-- `str.split()` with no argument: split on whitespace, dropping empty
fields.  The status output uses spaces and tabs. -/
def pySplit (s : String) : List String :=
  ((splitCharList (fun c => c == ' ' || c == '\t') s.data).map String.mk).filter
    (fun f => f ≠ "")

/-- `str.splitlines()`: newline-separated fields.  (A trailing newline yields
one extra empty field here; the only caller skips empty lines, so this does
not change any observable behavior.) -/
def pySplitlines (s : String) : List String :=
  (splitCharList (fun c => c == '\n') s.data).map String.mk

/-- `os.path.basename`: everything after the last slash. -/
def basename (p : String) : String :=
  String.mk ((splitCharList (fun c => c == '/') p.data).getLastD [])

/-- The per-object state established by `CryptsetupEncryptor.__init__`. -/
structure EncState where
  symlink_path : String
  dev_name : String
  dev_path : String
deriving DecidableEq, Repr

namespace Cryptsetup

/-- Python `hex(x).replace('0x', '')` for a byte `0 ≤ x < 256`: lowercase hex
digits with no leading zero (a single digit for `x < 16`). -/
def pyHexByte (b : Nat) : List Char :=
  if b < 16 then [Nat.digitChar b] else [Nat.digitChar (b / 16), Nat.digitChar (b % 16)]

/-- `binascii.hexlify`: two lowercase hex digits per byte, concatenated. -/
def hexlifyChars : List Nat → List Char
  | [] => []
  | b :: bs => Nat.digitChar (b / 16) :: Nat.digitChar (b % 16) :: hexlifyChars bs

/-- `CryptsetupEncryptor._get_passphrase`: `binascii.hexlify(key).decode('utf-8')`. -/
def get_passphrase (key : List Nat) : String := ⟨hexlifyChars key⟩

/-- `CryptsetupEncryptor._get_mangled_passphrase`:
`''.join(hex(x).replace('0x', '') for x in array.array('B', key).tolist())`. -/
def mangledChars : List Nat → List Char
  | [] => []
  | b :: bs => pyHexByte b ++ mangledChars bs

def get_mangled_passphrase (key : List Nat) : String := ⟨mangledChars key⟩

/-- Optional `--cipher` / `--key-size` arguments from `kwargs`. -/
def optArgs (flag : String) : Option String → List String
  | none => []
  | some v => [flag, v]

/-- The argv+stdin of the raw `cryptsetup create` open command built by
`CryptsetupEncryptor._open_volume`. -/
def open_cmd (s : EncState) (passphrase : String) (cipher key_size : Option String) : Cmd :=
  ⟨["cryptsetup", "create", "--key-file=-"] ++ optArgs "--cipher" cipher
      ++ optArgs "--key-size" key_size ++ [s.dev_name, s.dev_path],
    some passphrase⟩

/-- `CryptsetupEncryptor._open_volume` (`check_exit_code=True`). -/
def open_volume (s : EncState) (passphrase : String) (cipher key_size : Option String) :
    M Unit :=
  mBind (executeOnce (open_cmd s passphrase cipher key_size) (ExitCheck.codes [0]))
    (fun _ => mPure ())

def status_cmd (s : EncState) : Cmd := ⟨["cryptsetup", "status", s.dev_name], none⟩

/-- The scanning loop of `CryptsetupEncryptor._get_backend_device`: find a
`device: <path>` line whose path is nonempty and exists. -/
def scan_status_lines (ex : String → Bool) : List String → Option String
  | [] => none
  | line :: rest =>
    if line = "" then scan_status_lines ex rest
    else
      match pySplit line with
      | [name, device] =>
        if name = "device:" ∧ device ≠ "" ∧ ex device then some device
        else scan_status_lines ex rest
      | _ => scan_status_lines ex rest

/-- `CryptsetupEncryptor._get_backend_device` (`check_exit_code=[0, 4]`). -/
def get_backend_device (s : EncState) : M (Option String) :=
  mBind (executeOnce (status_cmd s) (ExitCheck.codes [0, 4])) (fun stdout =>
  mBind (mAsks fun env => env.pathExists) (fun ex =>
  mPure (if stdout = "" then none else scan_status_lines ex (pySplitlines stdout))))

def udev_cmd (device : String) : Cmd := ⟨["udevadm", "trigger", device], none⟩

/-- `CryptsetupEncryptor._restore_device_links` (`check_exit_code=False`). -/
def restore_device_links (device : String) : M Unit :=
  mBind (executeOnce (udev_cmd device) ExitCheck.noCheck) (fun _ => mPure ())

def remove_cmd (s : EncState) : Cmd := ⟨["cryptsetup", "remove", s.dev_name], none⟩

/-- `CryptsetupEncryptor._close_volume`: status, early return when no device,
else `cryptsetup remove` accepting exit codes 0 and 4, then the udev trigger. -/
def close_volume (s : EncState) : M Unit :=
  mBind (get_backend_device s) (fun device =>
    match device with
    | none => mPure ()
    | some d =>
      mBind (executeOnce (remove_cmd s) (ExitCheck.codes [0, 4])) (fun _ =>
        restore_device_links d))

def ln_cmd (s : EncState) : Cmd :=
  ⟨["ln", "--symbolic", "--force", "/dev/mapper/" ++ s.dev_name, s.symlink_path], none⟩

/-- `CryptsetupEncryptor.attach_volume`.  Note the source's `except` clause:
when the first open fails with exit code 2 it retries once with the mangled
passphrase; for any other exit code the handler body does nothing, so the
exception is swallowed and control reaches the `ln` rebinding step. -/
def attach_volume (s : EncState) (key : List Nat) (cipher key_size : Option String) :
    M Unit :=
  mBind
    (mCatch (open_volume s (get_passphrase key) cipher key_size)
      (fun e =>
        if e.exit_code = 2 then
          open_volume s (get_mangled_passphrase key) cipher key_size
        else mPure ()))
    (fun _ => mBind (executeOnce (ln_cmd s) (ExitCheck.codes [0])) (fun _ => mPure ()))

end Cryptsetup

namespace Luks

/-- `is_luks`: run `cryptsetup isLuks --verbose <device>`; exit 0 means the
device is a LUKS partition, any failure yields `false`. -/
def isLuks_cmd (s : EncState) : Cmd := ⟨["cryptsetup", "isLuks", "--verbose", s.dev_path], none⟩

def is_luks (s : EncState) : M Bool :=
  mCatch (mBind (executeOnce (isLuks_cmd s) (ExitCheck.codes [0])) (fun _ => mPure true))
    (fun _ => mPure false)

/-- The argv+stdin of `LuksEncryptor._format_volume`'s command. -/
def format_cmd (s : EncState) (passphrase : String) (cipher key_size : Option String) : Cmd :=
  ⟨["cryptsetup", "--batch-mode", "luksFormat", "--key-file=-"]
      ++ Cryptsetup.optArgs "--cipher" cipher ++ Cryptsetup.optArgs "--key-size" key_size
      ++ [s.dev_path],
    some passphrase⟩

/-- `LuksEncryptor._format_volume` (`check_exit_code=True`, `attempts=3`). -/
def format_volume (s : EncState) (passphrase : String) (cipher key_size : Option String) :
    M Unit :=
  mBind (executeAttempts 3 (format_cmd s passphrase cipher key_size) (ExitCheck.codes [0]))
    (fun _ => mPure ())

def luksOpen_cmd (s : EncState) (passphrase : String) : Cmd :=
  ⟨["cryptsetup", "luksOpen", "--key-file=-", s.dev_path, s.dev_name], some passphrase⟩

/-- `LuksEncryptor._open_volume` (`check_exit_code=True`). -/
def open_volume (s : EncState) (passphrase : String) : M Unit :=
  mBind (executeOnce (luksOpen_cmd s passphrase) (ExitCheck.codes [0])) (fun _ => mPure ())

def luksClose_cmd (s : EncState) : Cmd := ⟨["cryptsetup", "luksClose", s.dev_name], none⟩

/-- `LuksEncryptor._close_volume`: status, early return when no device, else
`cryptsetup luksClose` with `check_exit_code=[0, 4]` and `attempts=3`, then
the udev trigger. -/
def close_volume (s : EncState) : M Unit :=
  mBind (Cryptsetup.get_backend_device s) (fun device =>
    match device with
    | none => mPure ()
    | some d =>
      mBind (executeAttempts 3 (luksClose_cmd s) (ExitCheck.codes [0, 4])) (fun _ =>
        Cryptsetup.restore_device_links d))

/-- The three-value stdin payload fed to `luksAddKey`: existing (mangled)
passphrase, new passphrase, new passphrase again. -/
def addKey_input (mangled passphrase : String) : String :=
  mangled ++ "\n" ++ passphrase ++ "\n" ++ passphrase

def addKey_cmd (s : EncState) (mangled passphrase : String) : Cmd :=
  ⟨["cryptsetup", "luksAddKey", s.dev_path], some (addKey_input mangled passphrase)⟩

def removeKey_cmd (s : EncState) (mangled : String) : Cmd :=
  ⟨["cryptsetup", "luksRemoveKey", s.dev_path], some mangled⟩

/-- `LuksEncryptor._unmangle_volume`: open with the mangled passphrase, close,
`luksAddKey` the current passphrase, verify-open with the current passphrase,
close, `luksRemoveKey` the mangled passphrase. -/
def unmangle_volume (s : EncState) (key : List Nat) (passphrase : String) : M Unit :=
  mBind (open_volume s (Cryptsetup.get_mangled_passphrase key)) (fun _ =>
  mBind (close_volume s) (fun _ =>
  mBind (executeOnce (addKey_cmd s (Cryptsetup.get_mangled_passphrase key) passphrase)
          (ExitCheck.codes [0])) (fun _ =>
  mBind (open_volume s passphrase) (fun _ =>
  mBind (close_volume s) (fun _ =>
  mBind (executeOnce (removeKey_cmd s (Cryptsetup.get_mangled_passphrase key))
          (ExitCheck.codes [0])) (fun _ =>
  mPure ()))))))

/-- `LuksEncryptor.attach_volume`: open; on exit 1 with a failed `isLuks`
check, format and re-open; on exit 2, run the un-mangling migration and
re-open; otherwise re-raise.  Then rebind the symbolic link.  The `isLuks`
check only runs when the exit code is 1 (Python's `and` short-circuits). -/
def attach_volume (s : EncState) (key : List Nat) (cipher key_size : Option String) :
    M Unit :=
  mBind
    (mCatch (open_volume s (Cryptsetup.get_passphrase key))
      (fun e =>
        mBind
          (if e.exit_code = 1 then
            mBind (is_luks s) (fun il => mPure (!il))
          else mPure false)
          (fun notLuks =>
            if notLuks then
              mBind (format_volume s (Cryptsetup.get_passphrase key) cipher key_size)
                (fun _ => open_volume s (Cryptsetup.get_passphrase key))
            else if e.exit_code = 2 then
              mBind (unmangle_volume s key (Cryptsetup.get_passphrase key))
                (fun _ => open_volume s (Cryptsetup.get_passphrase key))
            else mRaise e)))
    (fun _ =>
      mBind (executeOnce (Cryptsetup.ln_cmd s) (ExitCheck.codes [0])) (fun _ => mPure ()))

end Luks

/-! ### Construction (`CryptsetupEncryptor.__init__`) -/

/-- The environment observed during construction: `os.path.exists` on
`/dev/mapper/<name>` and the exit code of `cryptsetup status <name>`. -/
structure InitEnv where
  mapperExists : String → Bool
  statusExit : String → Int

/-- The fields of `connection_info` the constructor reads. -/
structure ConnectionInfo where
  device_path : Option String
  volume_id : Option String
  serial : Option String
  multipath_id : Option String
  driver_volume_type : String

/-- The `VolumeEncryptionNotSupported` exception raised on a missing
`device_path`. -/
structure VolumeEncryptionNotSupported where
  volume_id : Option String
  volume_type : String
deriving DecidableEq, Repr

/-- Python `a or b` over optional strings (`None` and `''` are falsy). -/
def pyOrOpt : Option String → Option String → Option String
  | none, b => b
  | some s, b => if s = "" then b else some s

namespace Cryptsetup

/-- `CryptsetupEncryptor._is_crypt_device_available`, with the trace of
`cryptsetup status` commands it issues: `False` without running anything when
`/dev/mapper/<name>` does not exist; otherwise run the status command and
report whether it exited 0 (any raised exit code yields `False`). -/
def is_crypt_device_available (env : InitEnv) (dev_name : String) :
    Bool × List TraceEntry :=
  if env.mapperExists ("/dev/mapper/" ++ dev_name) then
    (env.statusExit dev_name == 0,
      [⟨⟨["cryptsetup", "status", dev_name], none⟩, env.statusExit dev_name⟩])
  else (false, [])

/-- `CryptsetupEncryptor.__init__` after the base-class call: fail when
`device_path` is missing or empty, else resolve `dev_name` via the legacy-name
and multipath fallbacks.  `realpath` stands for `os.path.realpath`. -/
def init (env : InitEnv) (ci : ConnectionInfo) (realpath : String → String) :
    Except VolumeEncryptionNotSupported EncState × List TraceEntry :=
  match ci.device_path with
  | none =>
    (Except.error ⟨pyOrOpt ci.volume_id ci.serial, ci.driver_volume_type⟩, [])
  | some p =>
    if p = "" then
      (Except.error ⟨pyOrOpt ci.volume_id ci.serial, ci.driver_volume_type⟩, [])
    else
      let old_dev_name := basename p
      let r1 := is_crypt_device_available env old_dev_name
      if r1.1 then (Except.ok ⟨p, old_dev_name, realpath p⟩, r1.2)
      else
        match ci.multipath_id with
        | some w =>
          if w ≠ "" ∧ w ≠ old_dev_name then
            let r2 := is_crypt_device_available env w
            if r2.1 then (Except.ok ⟨p, w, realpath p⟩, r1.2 ++ r2.2)
            else (Except.ok ⟨p, "crypt-" ++ old_dev_name, realpath p⟩, r1.2 ++ r2.2)
          else (Except.ok ⟨p, "crypt-" ++ old_dev_name, realpath p⟩, r1.2)
        | none => (Except.ok ⟨p, "crypt-" ++ old_dev_name, realpath p⟩, r1.2)

end Cryptsetup

/-! ### Spec-side passphrase encodings (for the refinement claims) -/

/-- Spec-side current encoding: the lowercase hex digest of the raw bytes,
two lowercase hex digits per byte, concatenated. -/
def specCurrentChars : List Nat → List Char
  | [] => []
  | b :: bs => [Nat.digitChar (b / 16), Nat.digitChar (b % 16)] ++ specCurrentChars bs

def specCurrentPassphrase (key : List Nat) : String := ⟨specCurrentChars key⟩

/-- Strip the leading zero digits of a hex representation, keeping at least
one digit. -/
def stripLeadingZeros (l : List Char) : List Char :=
  match l.dropWhile (fun c => c == '0') with
  | [] => ['0']
  | r => r

/-- Spec-side legacy encoding: per byte, the unsigned-byte hex representation
with leading zero digits stripped, concatenated. -/
def specMangledChars : List Nat → List Char
  | [] => []
  | b :: bs =>
    stripLeadingZeros [Nat.digitChar (b / 16), Nat.digitChar (b % 16)] ++ specMangledChars bs

def specMangledPassphrase (key : List Nat) : String := ⟨specMangledChars key⟩

lemma digitChar_ne_zero_of_lt16 : ∀ b : Nat, b < 16 → b ≠ 0 → Nat.digitChar b ≠ '0' := by
  have H : ∀ x : Fin 16, x.val ≠ 0 → Nat.digitChar x.val ≠ '0' := by decide
  intro b hb hne
  exact H ⟨b, hb⟩ hne

lemma pyHexByte_eq_strip (b : Nat) (hb : b < 256) :
    Cryptsetup.pyHexByte b = stripLeadingZeros [Nat.digitChar (b / 16), Nat.digitChar (b % 16)] := by
  by_cases h : b < 16
  · have hdiv : b / 16 = 0 := Nat.div_eq_of_lt h
    have hmod : b % 16 = b := Nat.mod_eq_of_lt h
    rw [Cryptsetup.pyHexByte, if_pos h, hdiv, hmod]
    by_cases hz : b = 0
    · subst hz; rfl
    · have hne := digitChar_ne_zero_of_lt16 b h hz
      have h0 : (Nat.digitChar 0 == '0') = true := by decide
      have hb0 : (Nat.digitChar b == '0') = false := by simpa using hne
      simp [stripLeadingZeros, List.dropWhile, h0, hb0]
  · have hdivlt : b / 16 < 16 := by omega
    have hdivne : b / 16 ≠ 0 := by omega
    have hne := digitChar_ne_zero_of_lt16 (b / 16) hdivlt hdivne
    rw [Cryptsetup.pyHexByte, if_neg h]
    simp only [stripLeadingZeros, List.dropWhile]
    have : (Nat.digitChar (b / 16) == '0') = false := by simpa using hne
    simp [this]

lemma hexlifyChars_eq_spec (key : List Nat) :
    Cryptsetup.hexlifyChars key = specCurrentChars key := by
  induction key with
  | nil => rfl
  | cons b bs ih => simp [Cryptsetup.hexlifyChars, specCurrentChars, ih]

lemma mangledChars_eq_spec (key : List Nat) (h : ∀ b ∈ key, b < 256) :
    Cryptsetup.mangledChars key = specMangledChars key := by
  induction key with
  | nil => rfl
  | cons b bs ih =>
    have hb : b < 256 := h b (List.mem_cons_self b bs)
    have hrest : ∀ x ∈ bs, x < 256 := fun x hx => h x (List.mem_cons_of_mem b hx)
    simp [Cryptsetup.mangledChars, specMangledChars, ih hrest, pyHexByte_eq_strip b hb]

/-- C6: the current-encoding passphrase is the lowercase hex digest of the key
bytes, the mangled passphrase strips the leading zero digits per byte, and
both are deterministic functions of the key. -/
theorem passphrase_encodings_match_spec (key : List Nat) (h : ∀ b ∈ key, b < 256) :
    Cryptsetup.get_passphrase key = specCurrentPassphrase key
    ∧ Cryptsetup.get_mangled_passphrase key = specMangledPassphrase key
    ∧ (∀ key2 : List Nat, key2 = key →
        Cryptsetup.get_passphrase key2 = Cryptsetup.get_passphrase key
        ∧ Cryptsetup.get_mangled_passphrase key2 = Cryptsetup.get_mangled_passphrase key) := by
  refine ⟨?_, ?_, ?_⟩
  · simp [Cryptsetup.get_passphrase, specCurrentPassphrase, hexlifyChars_eq_spec]
  · simp [Cryptsetup.get_mangled_passphrase, specMangledPassphrase, mangledChars_eq_spec key h]
  · intro key2 hk; subst hk; exact ⟨rfl, rfl⟩

theorem passphrase_encodings_match_spec_witness :
    (∀ b ∈ ([0, 255] : List Nat), b < 256)
    ∧ Cryptsetup.get_passphrase [0, 255] = specCurrentPassphrase [0, 255]
    ∧ Cryptsetup.get_mangled_passphrase [0, 255] = specMangledPassphrase [0, 255] := by
  have h : ∀ b ∈ ([0, 255] : List Nat), b < 256 := by decide
  obtain ⟨h1, h2, _⟩ := passphrase_encodings_match_spec [0, 255] h
  exact ⟨h, h1, h2⟩

lemma digitChar_inj_lt16 : ∀ x y : Nat, x < 16 → y < 16 →
    Nat.digitChar x = Nat.digitChar y → x = y := by
  have H : ∀ x y : Fin 16, Nat.digitChar x.val = Nat.digitChar y.val → x = y := by decide
  intro x y hx hy h
  exact congrArg Fin.val (H ⟨x, hx⟩ ⟨y, hy⟩ h)

lemma hexlifyChars_inj : ∀ k1 k2 : List Nat, (∀ b ∈ k1, b < 256) → (∀ b ∈ k2, b < 256) →
    Cryptsetup.hexlifyChars k1 = Cryptsetup.hexlifyChars k2 → k1 = k2 := by
  intro k1
  induction k1 with
  | nil =>
    intro k2 _ _ h
    cases k2 with
    | nil => rfl
    | cons b bs => simp [Cryptsetup.hexlifyChars] at h
  | cons a l1 ih =>
    intro k2 h1 h2 h
    cases k2 with
    | nil => simp [Cryptsetup.hexlifyChars] at h
    | cons b l2 =>
      simp only [Cryptsetup.hexlifyChars, List.cons.injEq] at h
      obtain ⟨hd, hm, hrest⟩ := h
      have ha : a < 256 := h1 a (List.mem_cons_self a l1)
      have hb : b < 256 := h2 b (List.mem_cons_self b l2)
      have hdiv : a / 16 = b / 16 :=
        digitChar_inj_lt16 _ _ (by omega) (by omega) hd
      have hmod : a % 16 = b % 16 :=
        digitChar_inj_lt16 _ _ (by omega) (by omega) hm
      have hab : a = b := by omega
      have := ih l2 (fun x hx => h1 x (List.mem_cons_of_mem a hx))
        (fun x hx => h2 x (List.mem_cons_of_mem b hx)) hrest
      rw [hab, this]

/-- C10: the current encoding is injective on byte sequences, while the
mangled encoding collides on the distinct keys `[0x01, 0x23]` and
`[0x12, 0x03]`, which both mangle to `"123"`. -/
theorem passphrase_injectivity_mangled_collision :
    (∀ k1 k2 : List Nat, (∀ b ∈ k1, b < 256) → (∀ b ∈ k2, b < 256) →
        Cryptsetup.get_passphrase k1 = Cryptsetup.get_passphrase k2 → k1 = k2)
    ∧ Cryptsetup.get_mangled_passphrase [1, 35] = Cryptsetup.get_mangled_passphrase [18, 3]
    ∧ ([1, 35] : List Nat) ≠ [18, 3] := by
  refine ⟨?_, by decide, by decide⟩
  intro k1 k2 h1 h2 h
  exact hexlifyChars_inj k1 k2 h1 h2 (congrArg String.data h)

theorem passphrase_injectivity_mangled_collision_witness :
    (∀ b ∈ ([7] : List Nat), b < 256) ∧ ([7] : List Nat) = [7] :=
  ⟨by decide, passphrase_injectivity_mangled_collision.1 [7] [7] (by decide) (by decide) rfl⟩

/-! ### Device-name resolution and construction -/

/-- C2: device-name resolution at construction is the three-tier,
first-match-wins algorithm: an existing crypt-type mapping named the symlink
basename `B` wins; else a supplied multipath identifier `W ≠ B` with an
existing crypt-type mapping wins; else the name is `"crypt-" ++ B`.  A name
counts as a crypt-type mapping exactly when `/dev/mapper/<name>` exists and
the status query exits 0. -/
theorem dev_name_resolution_three_tier (env : InitEnv) (ci : ConnectionInfo)
    (rp : String → String) (p : String) (hp : ci.device_path = some p) (hne : p ≠ "") :
    ((Cryptsetup.is_crypt_device_available env (basename p)).1 = true →
      (Cryptsetup.init env ci rp).1 = Except.ok ⟨p, basename p, rp p⟩)
    ∧ (∀ W, (Cryptsetup.is_crypt_device_available env (basename p)).1 = false →
        ci.multipath_id = some W → W ≠ "" → W ≠ basename p →
        (Cryptsetup.is_crypt_device_available env W).1 = true →
        (Cryptsetup.init env ci rp).1 = Except.ok ⟨p, W, rp p⟩)
    ∧ ((Cryptsetup.is_crypt_device_available env (basename p)).1 = false →
        (∀ W, ci.multipath_id = some W → W = "" ∨ W = basename p ∨
          (Cryptsetup.is_crypt_device_available env W).1 = false) →
        (Cryptsetup.init env ci rp).1 = Except.ok ⟨p, "crypt-" ++ basename p, rp p⟩)
    ∧ (∀ n, (Cryptsetup.is_crypt_device_available env n).1 =
        (env.mapperExists ("/dev/mapper/" ++ n) && env.statusExit n == 0)) := by
  refine ⟨?_, ?_, ?_, ?_⟩
  · intro h1
    simp [Cryptsetup.init, hp, hne, h1]
  · intro W h1 hm hW1 hW2 h2
    simp [Cryptsetup.init, hp, hne, h1, hm, hW1, hW2, h2]
  · intro h1 hall
    cases hm : ci.multipath_id with
    | none => simp [Cryptsetup.init, hp, hne, h1, hm]
    | some W =>
      rcases hall W hm with hW | hW | hW
      · simp [Cryptsetup.init, hp, hne, h1, hm, hW]
      · simp [Cryptsetup.init, hp, hne, h1, hm, hW]
      · by_cases hc : W ≠ "" ∧ W ≠ basename p
        · simp [Cryptsetup.init, hp, hne, h1, hm, hc, hW]
        · simp [Cryptsetup.init, hp, hne, h1, hm, hc]
  · intro n
    cases hx : env.mapperExists ("/dev/mapper/" ++ n) <;>
      simp [Cryptsetup.is_crypt_device_available, hx]

def resolutionEnvW : InitEnv :=
  ⟨fun n => n == "/dev/mapper/wwn1", fun _ => 0⟩

def resolutionCiW : ConnectionInfo :=
  ⟨some "/dev/disk/by-path/disk1", none, none, some "wwn1", "iscsi"⟩

theorem dev_name_resolution_three_tier_witness :
    resolutionCiW.device_path = some "/dev/disk/by-path/disk1"
    ∧ "/dev/disk/by-path/disk1" ≠ ""
    ∧ (Cryptsetup.is_crypt_device_available resolutionEnvW
        (basename "/dev/disk/by-path/disk1")).1 = false
    ∧ resolutionCiW.multipath_id = some "wwn1"
    ∧ (Cryptsetup.is_crypt_device_available resolutionEnvW "wwn1").1 = true
    ∧ (Cryptsetup.init resolutionEnvW resolutionCiW (fun _ => "/dev/sda")).1 =
        Except.ok ⟨"/dev/disk/by-path/disk1", "wwn1", "/dev/sda"⟩ := by
  refine ⟨rfl, by decide, by decide, rfl, by decide, ?_⟩
  exact (dev_name_resolution_three_tier resolutionEnvW resolutionCiW
      (fun _ => "/dev/sda") "/dev/disk/by-path/disk1" rfl (by decide)).2.1 "wwn1"
    (by decide) rfl (by decide) (by decide) (by decide)

/-- C9: when `connection_info.data` lacks a (nonempty) `device_path`,
construction fails immediately with `VolumeEncryptionNotSupported` carrying
the volume identifier and driver volume type, with no external command run;
construction succeeds whenever `device_path` is present and nonempty. -/
theorem init_requires_device_path (env : InitEnv) (ci : ConnectionInfo)
    (rp : String → String) :
    ((ci.device_path = none ∨ ci.device_path = some "") →
      Cryptsetup.init env ci rp =
        (Except.error ⟨pyOrOpt ci.volume_id ci.serial, ci.driver_volume_type⟩, []))
    ∧ (∀ p, ci.device_path = some p → p ≠ "" →
        ∃ st, (Cryptsetup.init env ci rp).1 = Except.ok st) := by
  constructor
  · rintro (hp | hp) <;> simp [Cryptsetup.init, hp]
  · intro p hp hne
    cases h1 : (Cryptsetup.is_crypt_device_available env (basename p)).1 with
    | true => exact ⟨⟨p, basename p, rp p⟩, by simp [Cryptsetup.init, hp, hne, h1]⟩
    | false =>
      cases hm : ci.multipath_id with
      | none =>
        exact ⟨⟨p, "crypt-" ++ basename p, rp p⟩, by simp [Cryptsetup.init, hp, hne, h1, hm]⟩
      | some W =>
        by_cases hc : W ≠ "" ∧ W ≠ basename p
        · cases h2 : (Cryptsetup.is_crypt_device_available env W).1 with
          | true =>
            exact ⟨⟨p, W, rp p⟩, by simp [Cryptsetup.init, hp, hne, h1, hm, hc, h2]⟩
          | false =>
            exact ⟨⟨p, "crypt-" ++ basename p, rp p⟩,
              by simp [Cryptsetup.init, hp, hne, h1, hm, hc, h2]⟩
        · exact ⟨⟨p, "crypt-" ++ basename p, rp p⟩,
            by simp [Cryptsetup.init, hp, hne, h1, hm, hc]⟩

def missingPathCiW : ConnectionInfo :=
  ⟨none, some "vol-1", none, none, "rbd"⟩

theorem init_requires_device_path_witness :
    (missingPathCiW.device_path = none ∨ missingPathCiW.device_path = some "")
    ∧ Cryptsetup.init resolutionEnvW missingPathCiW (fun p => p) =
        (Except.error ⟨some "vol-1", "rbd"⟩, []) :=
  ⟨Or.inl rfl,
    (init_requires_device_path resolutionEnvW missingPathCiW (fun p => p)).1 (Or.inl rfl)⟩

/-! ### Run lemmas for the execution model -/

lemma accepts_codes0 (e : Int) : (ExitCheck.codes [0]).accepts e = decide (e = 0) := by
  simp [ExitCheck.accepts, List.contains]

lemma accepts_codes04 (e : Int) :
    (ExitCheck.codes [0, 4]).accepts e = (decide (e = 0) || decide (e = 4)) := by
  simp [ExitCheck.accepts, List.contains]

lemma executeOnce_run (cmd : Cmd) (chk : ExitCheck) (env : Env) (i : Nat) :
    executeOnce cmd chk env i =
      (if chk.accepts (env.responses i).exit_code then
          Except.ok (env.responses i).stdout
        else Except.error ⟨(env.responses i).exit_code, (env.responses i).stderr⟩,
        [⟨cmd, (env.responses i).exit_code⟩], i + 1) := by
  by_cases h : chk.accepts (env.responses i).exit_code <;> simp [executeOnce, h]

/-- C1 (amended): in `CryptsetupEncryptor.attach_volume`, a first open failing
with exit code 2 triggers exactly one retry with the mangled passphrase (a
failure of the retry propagates); a first open failing with any exit code
other than 0 and 2 is swallowed by the handler and control proceeds directly
to the symbolic-link rebinding command. -/
theorem raw_attach_exit2_retry_and_suppression (env : Env) (s : EncState)
    (key : List Nat) (cipher key_size : Option String) (i : Nat) :
    ((env.responses i).exit_code = 2 → (env.responses (i + 1)).exit_code = 0 →
      Cryptsetup.attach_volume s key cipher key_size env i =
        ((if (env.responses (i + 2)).exit_code = 0 then Except.ok ()
          else Except.error ⟨(env.responses (i + 2)).exit_code,
                (env.responses (i + 2)).stderr⟩),
          [⟨Cryptsetup.open_cmd s (Cryptsetup.get_passphrase key) cipher key_size, 2⟩,
            ⟨Cryptsetup.open_cmd s (Cryptsetup.get_mangled_passphrase key) cipher key_size, 0⟩,
            ⟨Cryptsetup.ln_cmd s, (env.responses (i + 2)).exit_code⟩],
          i + 3))
    ∧ ((env.responses i).exit_code = 2 → (env.responses (i + 1)).exit_code ≠ 0 →
      Cryptsetup.attach_volume s key cipher key_size env i =
        (Except.error ⟨(env.responses (i + 1)).exit_code, (env.responses (i + 1)).stderr⟩,
          [⟨Cryptsetup.open_cmd s (Cryptsetup.get_passphrase key) cipher key_size, 2⟩,
            ⟨Cryptsetup.open_cmd s (Cryptsetup.get_mangled_passphrase key) cipher key_size,
              (env.responses (i + 1)).exit_code⟩],
          i + 2))
    ∧ ((env.responses i).exit_code ≠ 0 → (env.responses i).exit_code ≠ 2 →
      Cryptsetup.attach_volume s key cipher key_size env i =
        ((if (env.responses (i + 1)).exit_code = 0 then Except.ok ()
          else Except.error ⟨(env.responses (i + 1)).exit_code,
                (env.responses (i + 1)).stderr⟩),
          [⟨Cryptsetup.open_cmd s (Cryptsetup.get_passphrase key) cipher key_size,
              (env.responses i).exit_code⟩,
            ⟨Cryptsetup.ln_cmd s, (env.responses (i + 1)).exit_code⟩],
          i + 2)) := by
  refine ⟨?_, ?_, ?_⟩
  · intro h0 h1
    by_cases h2 : (env.responses (i + 2)).exit_code = 0 <;>
      simp [Cryptsetup.attach_volume, Cryptsetup.open_volume, mBind, mCatch, mPure,
        executeOnce_run, accepts_codes0, h0, h1, h2]
  · intro h0 h1
    simp [Cryptsetup.attach_volume, Cryptsetup.open_volume, mBind, mCatch, mPure,
      executeOnce_run, accepts_codes0, h0, h1]
  · intro h0 h2
    by_cases h1 : (env.responses (i + 1)).exit_code = 0 <;>
      simp [Cryptsetup.attach_volume, Cryptsetup.open_volume, mBind, mCatch, mPure,
        executeOnce_run, accepts_codes0, h0, h1, h2]

/-- The encryptor state used for concrete runs. -/
def sW : EncState := ⟨"/dev/disk/by-path/ip-1", "crypt-ip-1", "/dev/sda"⟩

def envRetryW : Env :=
  ⟨fun i => if i = 0 then ⟨2, "", "bad passphrase"⟩ else ⟨0, "", ""⟩, fun _ => true⟩

theorem raw_attach_exit2_retry_and_suppression_witness :
    (envRetryW.responses 0).exit_code = 2
    ∧ (envRetryW.responses 1).exit_code = 0
    ∧ Cryptsetup.attach_volume sW [0] none none envRetryW 0 =
        (Except.ok (),
          [⟨Cryptsetup.open_cmd sW (Cryptsetup.get_passphrase [0]) none none, 2⟩,
            ⟨Cryptsetup.open_cmd sW (Cryptsetup.get_mangled_passphrase [0]) none none, 0⟩,
            ⟨Cryptsetup.ln_cmd sW, 0⟩],
          3) := by
  refine ⟨rfl, rfl, ?_⟩
  have h := (raw_attach_exit2_retry_and_suppression envRetryW sW [0] none none 0).1 rfl rfl
  simpa using h

def envSwallowW : Env :=
  ⟨fun i => if i = 0 then ⟨5, "", "boom"⟩ else ⟨0, "", ""⟩, fun _ => true⟩

/-- C1 counterexample: a first open failing with exit code 5 does not
propagate — `attach_volume` returns success and the symbolic-link rebinding
command is still issued. -/
theorem raw_attach_nonzero_exit_suppressed_cex :
    (envSwallowW.responses 0).exit_code = 5
    ∧ Cryptsetup.attach_volume sW [0] none none envSwallowW 0 =
        (Except.ok (),
          [⟨Cryptsetup.open_cmd sW (Cryptsetup.get_passphrase [0]) none none, 5⟩,
            ⟨Cryptsetup.ln_cmd sW, 0⟩],
          2) := by
  exact ⟨rfl, by rfl⟩

/-! ### Close / detach idempotency -/

/-- The device reported by one `cryptsetup status` response, as
`_get_backend_device` computes it from the stdout of the response at index
`i`. -/
def statusYields (env : Env) (i : Nat) : Option String :=
  if (env.responses i).stdout = "" then none
  else Cryptsetup.scan_status_lines env.pathExists (pySplitlines (env.responses i).stdout)

lemma get_backend_device_run (s : EncState) (env : Env) (i : Nat)
    (hacc : (env.responses i).exit_code = 0 ∨ (env.responses i).exit_code = 4) :
    Cryptsetup.get_backend_device s env i =
      (Except.ok (statusYields env i),
        [⟨Cryptsetup.status_cmd s, (env.responses i).exit_code⟩], i + 1) := by
  rcases hacc with h | h <;>
    simp [Cryptsetup.get_backend_device, mBind, mAsks, mPure, executeOnce_run,
      accepts_codes04, statusYields, h]

lemma executeAttempts3_first_ok (cmd : Cmd) (chk : ExitCheck) (env : Env) (i : Nat)
    (h : chk.accepts (env.responses i).exit_code = true) :
    executeAttempts 3 cmd chk env i =
      (Except.ok (env.responses i).stdout,
        [⟨cmd, (env.responses i).exit_code⟩], i + 1) := by
  simp [executeAttempts, executeOnce_run, h]

lemma raw_close_run_none (s : EncState) (env : Env) (i : Nat)
    (hacc : (env.responses i).exit_code = 0 ∨ (env.responses i).exit_code = 4)
    (hnone : statusYields env i = none) :
    Cryptsetup.close_volume s env i =
      (Except.ok (), [⟨Cryptsetup.status_cmd s, (env.responses i).exit_code⟩], i + 1) := by
  simp [Cryptsetup.close_volume, mBind, mPure, get_backend_device_run s env i hacc, hnone]

lemma raw_close_run_some (s : EncState) (env : Env) (i : Nat) (d : String)
    (hacc : (env.responses i).exit_code = 0 ∨ (env.responses i).exit_code = 4)
    (hsome : statusYields env i = some d)
    (hrm : (env.responses (i + 1)).exit_code = 0 ∨ (env.responses (i + 1)).exit_code = 4) :
    Cryptsetup.close_volume s env i =
      (Except.ok (),
        [⟨Cryptsetup.status_cmd s, (env.responses i).exit_code⟩,
          ⟨Cryptsetup.remove_cmd s, (env.responses (i + 1)).exit_code⟩,
          ⟨Cryptsetup.udev_cmd d, (env.responses (i + 2)).exit_code⟩], i + 3) := by
  rcases hrm with h | h <;>
    simp [Cryptsetup.close_volume, Cryptsetup.restore_device_links, mBind, mPure,
      get_backend_device_run s env i hacc, hsome, executeOnce_run, accepts_codes04,
      ExitCheck.accepts, h]

lemma luks_close_run_none (s : EncState) (env : Env) (i : Nat)
    (hacc : (env.responses i).exit_code = 0 ∨ (env.responses i).exit_code = 4)
    (hnone : statusYields env i = none) :
    Luks.close_volume s env i =
      (Except.ok (), [⟨Cryptsetup.status_cmd s, (env.responses i).exit_code⟩], i + 1) := by
  simp [Luks.close_volume, mBind, mPure, get_backend_device_run s env i hacc, hnone]

lemma luks_close_run_some (s : EncState) (env : Env) (i : Nat) (d : String)
    (hacc : (env.responses i).exit_code = 0 ∨ (env.responses i).exit_code = 4)
    (hsome : statusYields env i = some d)
    (hrm : (env.responses (i + 1)).exit_code = 0 ∨ (env.responses (i + 1)).exit_code = 4) :
    Luks.close_volume s env i =
      (Except.ok (),
        [⟨Cryptsetup.status_cmd s, (env.responses i).exit_code⟩,
          ⟨Luks.luksClose_cmd s, (env.responses (i + 1)).exit_code⟩,
          ⟨Cryptsetup.udev_cmd d, (env.responses (i + 2)).exit_code⟩], i + 3) := by
  have hchk : (ExitCheck.codes [0, 4]).accepts (env.responses (i + 1)).exit_code = true := by
    rcases hrm with h | h <;> simp [accepts_codes04, h]
  simp [Luks.close_volume, Cryptsetup.restore_device_links, mBind, mPure,
    get_backend_device_run s env i hacc, hsome,
    executeAttempts3_first_ok _ _ env (i + 1) hchk, executeOnce_run, ExitCheck.accepts]

/-- Modelled from the spec (§6 exit-code table, which describes the external
tool rather than this repository): the tool's responses as a function of
whether a mapping currently exists under the resolved name — `status` exits 0
with a `device:` line when mapped and 4 with empty output when not; `remove`,
`luksClose` and the udev trigger exit 0. -/
def worldEnv (mapped : Bool) : Env :=
  ⟨fun i =>
    if i = 0 then (if mapped then ⟨0, "device: /dev/backing", ""⟩ else ⟨4, "", ""⟩)
    else ⟨0, "", ""⟩,
    fun p => p == "/dev/backing"⟩

/-- Whether a trace contains a successful raw `cryptsetup remove`. -/
def rawRemoved (t : List TraceEntry) (s : EncState) : Bool :=
  t.any fun en => en.cmd == Cryptsetup.remove_cmd s

/-- Whether a trace contains a successful `cryptsetup luksClose`. -/
def luksRemoved (t : List TraceEntry) (s : EncState) : Bool :=
  t.any fun en => en.cmd == Luks.luksClose_cmd s

/-- Two successive raw detach calls: the second runs in the world left behind
by the first (a successful remove destroys the mapping). -/
def detach_twice_raw (s : EncState) (mapped : Bool) : Except PError Unit :=
  let r1 := Cryptsetup.close_volume s (worldEnv mapped) 0
  let mapped2 := mapped && !(rawRemoved (r1.2.1) s)
  (Cryptsetup.close_volume s (worldEnv mapped2) 0).1

/-- Two successive LUKS detach calls. -/
def detach_twice_luks (s : EncState) (mapped : Bool) : Except PError Unit :=
  let r1 := Luks.close_volume s (worldEnv mapped) 0
  let mapped2 := mapped && !(luksRemoved (r1.2.1) s)
  (Luks.close_volume s (worldEnv mapped2) 0).1

/-- C3: close/detach is idempotent for both backends.  If the status query
succeeds and reports no mapped device, close returns successfully after the
status command alone (no remove).  If a device is mapped, the remove command
accepts exit codes 0 and 4.  Consequently two successive detach calls (the
second running in the world the first left behind) never fail on the second
call. -/
theorem close_idempotent_both_backends (env : Env) (s : EncState) (i : Nat) :
    (((env.responses i).exit_code = 0 ∨ (env.responses i).exit_code = 4) →
      statusYields env i = none →
      Cryptsetup.close_volume s env i =
        (Except.ok (), [⟨Cryptsetup.status_cmd s, (env.responses i).exit_code⟩], i + 1))
    ∧ (∀ d, ((env.responses i).exit_code = 0 ∨ (env.responses i).exit_code = 4) →
        statusYields env i = some d →
        ((env.responses (i + 1)).exit_code = 0 ∨ (env.responses (i + 1)).exit_code = 4) →
        Cryptsetup.close_volume s env i =
          (Except.ok (),
            [⟨Cryptsetup.status_cmd s, (env.responses i).exit_code⟩,
              ⟨Cryptsetup.remove_cmd s, (env.responses (i + 1)).exit_code⟩,
              ⟨Cryptsetup.udev_cmd d, (env.responses (i + 2)).exit_code⟩], i + 3))
    ∧ (((env.responses i).exit_code = 0 ∨ (env.responses i).exit_code = 4) →
      statusYields env i = none →
      Luks.close_volume s env i =
        (Except.ok (), [⟨Cryptsetup.status_cmd s, (env.responses i).exit_code⟩], i + 1))
    ∧ (∀ d, ((env.responses i).exit_code = 0 ∨ (env.responses i).exit_code = 4) →
        statusYields env i = some d →
        ((env.responses (i + 1)).exit_code = 0 ∨ (env.responses (i + 1)).exit_code = 4) →
        Luks.close_volume s env i =
          (Except.ok (),
            [⟨Cryptsetup.status_cmd s, (env.responses i).exit_code⟩,
              ⟨Luks.luksClose_cmd s, (env.responses (i + 1)).exit_code⟩,
              ⟨Cryptsetup.udev_cmd d, (env.responses (i + 2)).exit_code⟩], i + 3))
    ∧ (∀ s2 : EncState, ∀ m : Bool, detach_twice_raw s2 m = Except.ok ())
    ∧ (∀ s2 : EncState, ∀ m : Bool, detach_twice_luks s2 m = Except.ok ()) := by
  refine ⟨raw_close_run_none s env i, fun d => raw_close_run_some s env i d,
    luks_close_run_none s env i, fun d => luks_close_run_some s env i d, ?_, ?_⟩
  · intro s2 m
    cases m with
    | false =>
      have h1 := raw_close_run_none s2 (worldEnv false) 0 (Or.inr rfl) rfl
      simp [detach_twice_raw, h1]
    | true =>
      have h1 := raw_close_run_some s2 (worldEnv true) 0 "/dev/backing" (Or.inl rfl)
        (by decide) (Or.inl rfl)
      have h2 := raw_close_run_none s2 (worldEnv false) 0 (Or.inr rfl) rfl
      simp [detach_twice_raw, h1, rawRemoved, Cryptsetup.remove_cmd, Cryptsetup.status_cmd,
        Cryptsetup.udev_cmd, h2]
  · intro s2 m
    cases m with
    | false =>
      have h1 := luks_close_run_none s2 (worldEnv false) 0 (Or.inr rfl) rfl
      simp [detach_twice_luks, h1]
    | true =>
      have h1 := luks_close_run_some s2 (worldEnv true) 0 "/dev/backing" (Or.inl rfl)
        (by decide) (Or.inl rfl)
      have h2 := luks_close_run_none s2 (worldEnv false) 0 (Or.inr rfl) rfl
      simp [detach_twice_luks, h1, luksRemoved, Luks.luksClose_cmd, Cryptsetup.status_cmd,
        Cryptsetup.udev_cmd, h2]

theorem close_idempotent_both_backends_witness :
    ((worldEnv false).responses 0).exit_code = 4
    ∧ statusYields (worldEnv false) 0 = none
    ∧ Cryptsetup.close_volume sW (worldEnv false) 0 =
        (Except.ok (), [⟨Cryptsetup.status_cmd sW, 4⟩], 1)
    ∧ detach_twice_raw sW true = Except.ok ()
    ∧ detach_twice_luks sW true = Except.ok () := by
  have h := close_idempotent_both_backends (worldEnv false) sW 0
  exact ⟨rfl, rfl, h.1 (Or.inr rfl) rfl, h.2.2.2.2.1 sW true, h.2.2.2.2.2 sW true⟩

/-! ### Retry policy -/

lemma executeAttempts3_fail3 (cmd : Cmd) (chk : ExitCheck) (env : Env) (i : Nat)
    (h0 : chk.accepts (env.responses i).exit_code = false)
    (h1 : chk.accepts (env.responses (i + 1)).exit_code = false)
    (h2 : chk.accepts (env.responses (i + 2)).exit_code = false) :
    executeAttempts 3 cmd chk env i =
      (Except.error ⟨(env.responses (i + 2)).exit_code, (env.responses (i + 2)).stderr⟩,
        [⟨cmd, (env.responses i).exit_code⟩, ⟨cmd, (env.responses (i + 1)).exit_code⟩,
          ⟨cmd, (env.responses (i + 2)).exit_code⟩], i + 3) := by
  simp [executeAttempts, executeOnce_run, h0, h1, h2]

lemma executeAttempts3_fail1_ok (cmd : Cmd) (chk : ExitCheck) (env : Env) (i : Nat)
    (h0 : chk.accepts (env.responses i).exit_code = false)
    (h1 : chk.accepts (env.responses (i + 1)).exit_code = true) :
    executeAttempts 3 cmd chk env i =
      (Except.ok (env.responses (i + 1)).stdout,
        [⟨cmd, (env.responses i).exit_code⟩, ⟨cmd, (env.responses (i + 1)).exit_code⟩],
        i + 2) := by
  simp [executeAttempts, executeOnce_run, h0, h1]

/-- C8: the LUKS format command and the LUKS close command are attempted up
to 3 times before a failure surfaces (one attempt suffices on success, a
failing attempt is retried), while the raw backend's open and remove commands
are issued exactly once, their first failure surfacing immediately. -/
theorem retry_policy_format_close (env : Env) (s : EncState) (i : Nat)
    (pass : String) (cipher key_size : Option String) :
    ((env.responses i).exit_code ≠ 0 → (env.responses (i + 1)).exit_code ≠ 0 →
      (env.responses (i + 2)).exit_code ≠ 0 →
      Luks.format_volume s pass cipher key_size env i =
        (Except.error ⟨(env.responses (i + 2)).exit_code, (env.responses (i + 2)).stderr⟩,
          [⟨Luks.format_cmd s pass cipher key_size, (env.responses i).exit_code⟩,
            ⟨Luks.format_cmd s pass cipher key_size, (env.responses (i + 1)).exit_code⟩,
            ⟨Luks.format_cmd s pass cipher key_size, (env.responses (i + 2)).exit_code⟩],
          i + 3))
    ∧ ((env.responses i).exit_code ≠ 0 → (env.responses (i + 1)).exit_code = 0 →
      Luks.format_volume s pass cipher key_size env i =
        (Except.ok (),
          [⟨Luks.format_cmd s pass cipher key_size, (env.responses i).exit_code⟩,
            ⟨Luks.format_cmd s pass cipher key_size, 0⟩], i + 2))
    ∧ ((env.responses i).exit_code = 0 →
      Luks.format_volume s pass cipher key_size env i =
        (Except.ok (), [⟨Luks.format_cmd s pass cipher key_size, 0⟩], i + 1))
    ∧ (∀ d, ((env.responses i).exit_code = 0 ∨ (env.responses i).exit_code = 4) →
        statusYields env i = some d →
        (∀ k, k < 3 → (env.responses (i + 1 + k)).exit_code ≠ 0
          ∧ (env.responses (i + 1 + k)).exit_code ≠ 4) →
        Luks.close_volume s env i =
          (Except.error ⟨(env.responses (i + 3)).exit_code, (env.responses (i + 3)).stderr⟩,
            [⟨Cryptsetup.status_cmd s, (env.responses i).exit_code⟩,
              ⟨Luks.luksClose_cmd s, (env.responses (i + 1)).exit_code⟩,
              ⟨Luks.luksClose_cmd s, (env.responses (i + 2)).exit_code⟩,
              ⟨Luks.luksClose_cmd s, (env.responses (i + 3)).exit_code⟩], i + 4))
    ∧ ((env.responses i).exit_code ≠ 0 →
      Cryptsetup.open_volume s pass cipher key_size env i =
        (Except.error ⟨(env.responses i).exit_code, (env.responses i).stderr⟩,
          [⟨Cryptsetup.open_cmd s pass cipher key_size, (env.responses i).exit_code⟩],
          i + 1))
    ∧ (∀ d, ((env.responses i).exit_code = 0 ∨ (env.responses i).exit_code = 4) →
        statusYields env i = some d →
        (env.responses (i + 1)).exit_code ≠ 0 → (env.responses (i + 1)).exit_code ≠ 4 →
        Cryptsetup.close_volume s env i =
          (Except.error ⟨(env.responses (i + 1)).exit_code, (env.responses (i + 1)).stderr⟩,
            [⟨Cryptsetup.status_cmd s, (env.responses i).exit_code⟩,
              ⟨Cryptsetup.remove_cmd s, (env.responses (i + 1)).exit_code⟩], i + 2)) := by
  refine ⟨?_, ?_, ?_, ?_, ?_, ?_⟩
  · intro h0 h1 h2
    have c0 : (ExitCheck.codes [0]).accepts (env.responses i).exit_code = false := by
      simp [accepts_codes0, h0]
    have c1 : (ExitCheck.codes [0]).accepts (env.responses (i + 1)).exit_code = false := by
      simp [accepts_codes0, h1]
    have c2 : (ExitCheck.codes [0]).accepts (env.responses (i + 2)).exit_code = false := by
      simp [accepts_codes0, h2]
    simp [Luks.format_volume, mBind, mPure, executeAttempts3_fail3 _ _ env i c0 c1 c2]
  · intro h0 h1
    have c0 : (ExitCheck.codes [0]).accepts (env.responses i).exit_code = false := by
      simp [accepts_codes0, h0]
    have c1 : (ExitCheck.codes [0]).accepts (env.responses (i + 1)).exit_code = true := by
      simp [accepts_codes0, h1]
    simp [Luks.format_volume, mBind, mPure, executeAttempts3_fail1_ok _ _ env i c0 c1, h1]
  · intro h0
    have c0 : (ExitCheck.codes [0]).accepts (env.responses i).exit_code = true := by
      simp [accepts_codes0, h0]
    simp [Luks.format_volume, mBind, mPure, executeAttempts3_first_ok _ _ env i c0, h0]
  · intro d hacc hsome hfail
    have c1 : (ExitCheck.codes [0, 4]).accepts (env.responses (i + 1)).exit_code = false := by
      have h := hfail 0 (by norm_num)
      simp only [Nat.add_zero] at h
      simp [accepts_codes04, h.1, h.2]
    have c2 : (ExitCheck.codes [0, 4]).accepts (env.responses (i + 2)).exit_code = false := by
      have h := hfail 1 (by norm_num)
      have e1 : i + 1 + 1 = i + 2 := by omega
      rw [e1] at h
      simp [accepts_codes04, h.1, h.2]
    have c3 : (ExitCheck.codes [0, 4]).accepts (env.responses (i + 3)).exit_code = false := by
      have h := hfail 2 (by norm_num)
      have e2 : i + 1 + 2 = i + 3 := by omega
      rw [e2] at h
      simp [accepts_codes04, h.1, h.2]
    simp [Luks.close_volume, mBind, mPure, get_backend_device_run s env i hacc, hsome,
      executeAttempts3_fail3 _ _ env (i + 1) c1 c2 c3]
  · intro h0
    simp [Cryptsetup.open_volume, mBind, mPure, executeOnce_run, accepts_codes0, h0]
  · intro d hacc hsome h1 h14
    simp [Cryptsetup.close_volume, mBind, mPure, get_backend_device_run s env i hacc, hsome,
      executeOnce_run, accepts_codes04, h1, h14]

def envRetryFailW : Env :=
  ⟨fun j => if j = 0 then ⟨0, "device: /dev/backing", ""⟩ else ⟨1, "", "busy"⟩,
    fun p => p == "/dev/backing"⟩

theorem retry_policy_format_close_witness :
    (envRetryFailW.responses 1).exit_code ≠ 0
    ∧ (envRetryFailW.responses 2).exit_code ≠ 0
    ∧ (envRetryFailW.responses 3).exit_code ≠ 0
    ∧ Luks.format_volume sW "70617373" none none envRetryFailW 1 =
        (Except.error ⟨1, "busy"⟩,
          [⟨Luks.format_cmd sW "70617373" none none, 1⟩,
            ⟨Luks.format_cmd sW "70617373" none none, 1⟩,
            ⟨Luks.format_cmd sW "70617373" none none, 1⟩], 4)
    ∧ Cryptsetup.open_volume sW "70617373" none none envRetryFailW 1 =
        (Except.error ⟨1, "busy"⟩,
          [⟨Cryptsetup.open_cmd sW "70617373" none none, 1⟩], 2) := by
  have h := retry_policy_format_close envRetryFailW sW 1 "70617373" none none
  refine ⟨by decide, by decide, by decide, ?_, ?_⟩
  · simpa using h.1 (by decide) (by decide) (by decide)
  · simpa using h.2.2.2.2.1 (by decide)

/-! ### Trace invariants -/

/-- Every entry of every trace the computation can produce satisfies `P`. -/
def TraceAll {α : Type} (P : TraceEntry → Prop) (m : M α) : Prop :=
  ∀ env i, ∀ en ∈ (m env i).2.1, P en

lemma traceAll_mPure {α : Type} (P : TraceEntry → Prop) (a : α) : TraceAll P (mPure a) := by
  intro env i en hen
  simp [mPure] at hen

lemma traceAll_mRaise {α : Type} (P : TraceEntry → Prop) (e : PError) :
    TraceAll P (mRaise (α := α) e) := by
  intro env i en hen
  simp [mRaise] at hen

lemma traceAll_mAsks {α : Type} (P : TraceEntry → Prop) (f : Env → α) :
    TraceAll P (mAsks f) := by
  intro env i en hen
  simp [mAsks] at hen

lemma traceAll_mBind {α β : Type} (P : TraceEntry → Prop) (x : M α) (f : α → M β)
    (hx : TraceAll P x) (hf : ∀ a, TraceAll P (f a)) : TraceAll P (mBind x f) := by
  intro env i en hen
  unfold mBind at hen
  rcases hxv : x env i with ⟨r, t, j⟩
  rw [hxv] at hen
  have hmt : ∀ e2 ∈ t, P e2 := by
    intro e2 he2
    have := hx env i e2
    rw [hxv] at this
    exact this he2
  cases r with
  | error e => exact hmt en hen
  | ok a =>
    rcases hfv : f a env j with ⟨r2, t2, k⟩
    simp [hfv] at hen
    rcases hen with hen | hen
    · exact hmt en hen
    · have := hf a env j en
      rw [hfv] at this
      exact this hen

lemma traceAll_mCatch {α : Type} (P : TraceEntry → Prop) (x : M α) (h : PError → M α)
    (hx : TraceAll P x) (hh : ∀ e, TraceAll P (h e)) : TraceAll P (mCatch x h) := by
  intro env i en hen
  unfold mCatch at hen
  rcases hxv : x env i with ⟨r, t, j⟩
  rw [hxv] at hen
  have hmt : ∀ e2 ∈ t, P e2 := by
    intro e2 he2
    have := hx env i e2
    rw [hxv] at this
    exact this he2
  cases r with
  | ok a => exact hmt en hen
  | error e =>
    rcases hhv : h e env j with ⟨r2, t2, k⟩
    simp [hhv] at hen
    rcases hen with hen | hen
    · exact hmt en hen
    · have := hh e env j en
      rw [hhv] at this
      exact this hen

lemma traceAll_executeOnce (P : TraceEntry → Prop) (cmd : Cmd) (chk : ExitCheck)
    (h : ∀ e, P ⟨cmd, e⟩) : TraceAll P (executeOnce cmd chk) := by
  intro env i en hen
  rw [executeOnce_run] at hen
  simp at hen
  subst hen
  exact h _

lemma traceAll_executeAttempts (P : TraceEntry → Prop) (cmd : Cmd) (chk : ExitCheck)
    (h : ∀ e, P ⟨cmd, e⟩) : ∀ n, TraceAll P (executeAttempts n cmd chk)
  | 0 => traceAll_executeOnce P cmd chk h
  | 1 => traceAll_executeOnce P cmd chk h
  | n + 2 => by
    intro env i en hen
    unfold executeAttempts at hen
    rcases hxv : executeOnce cmd chk env i with ⟨r, t, j⟩
    rw [hxv] at hen
    have hmt : ∀ e2 ∈ t, P e2 := by
      intro e2 he2
      have := traceAll_executeOnce P cmd chk h env i e2
      rw [hxv] at this
      exact this he2
    cases r with
    | ok a => exact hmt en hen
    | error e =>
      rcases hrv : executeAttempts (n + 1) cmd chk env j with ⟨r2, t2, k⟩
      simp [hrv] at hen
      rcases hen with hen | hen
      · exact hmt en hen
      · have := traceAll_executeAttempts P cmd chk h (n + 1) env j en
        rw [hrv] at this
        exact this hen

/-! ### Run lemmas for `LuksEncryptor.attach_volume` -/

/-- Prepend one trace entry to a run result. -/
def consTrace {α : Type} (en : TraceEntry) (x : Except PError α × List TraceEntry × Nat) :
    Except PError α × List TraceEntry × Nat := (x.1, en :: x.2.1, x.2.2)

/-- The final symbolic-link rebinding step shared by both attach flows. -/
def ln_step (s : EncState) : M Unit :=
  mBind (executeOnce (Cryptsetup.ln_cmd s) (ExitCheck.codes [0])) (fun _ => mPure ())

/-- What remains of the LUKS attach flow once the first open has failed with
exit code 2: the un-mangling migration, the re-open, then the link step. -/
def exit2Rest (s : EncState) (key : List Nat) : M Unit :=
  mBind
    (mBind (Luks.unmangle_volume s key (Cryptsetup.get_passphrase key))
      (fun _ => Luks.open_volume s (Cryptsetup.get_passphrase key)))
    (fun _ => ln_step s)

/-- What remains of the LUKS attach flow once the first open has failed with
exit code 1 and `isLuks` has failed: format, re-open, then the link step. -/
def formatRest (s : EncState) (key : List Nat) (cipher key_size : Option String) : M Unit :=
  mBind
    (mBind (Luks.format_volume s (Cryptsetup.get_passphrase key) cipher key_size)
      (fun _ => Luks.open_volume s (Cryptsetup.get_passphrase key)))
    (fun _ => ln_step s)

lemma luks_attach_run_ok (env : Env) (s : EncState) (key : List Nat)
    (cipher key_size : Option String) (i : Nat)
    (h0 : (env.responses i).exit_code = 0) :
    Luks.attach_volume s key cipher key_size env i =
      ((if (env.responses (i + 1)).exit_code = 0 then Except.ok ()
        else Except.error ⟨(env.responses (i + 1)).exit_code,
              (env.responses (i + 1)).stderr⟩),
        [⟨Luks.luksOpen_cmd s (Cryptsetup.get_passphrase key), 0⟩,
          ⟨Cryptsetup.ln_cmd s, (env.responses (i + 1)).exit_code⟩], i + 2) := by
  by_cases h1 : (env.responses (i + 1)).exit_code = 0 <;>
    simp [Luks.attach_volume, Luks.open_volume, mBind, mCatch, mPure, executeOnce_run,
      accepts_codes0, h0, h1]

lemma luks_attach_run_exit1_isluks (env : Env) (s : EncState) (key : List Nat)
    (cipher key_size : Option String) (i : Nat)
    (h0 : (env.responses i).exit_code = 1)
    (h1 : (env.responses (i + 1)).exit_code = 0) :
    Luks.attach_volume s key cipher key_size env i =
      (Except.error ⟨1, (env.responses i).stderr⟩,
        [⟨Luks.luksOpen_cmd s (Cryptsetup.get_passphrase key), 1⟩,
          ⟨Luks.isLuks_cmd s, 0⟩], i + 2) := by
  simp [Luks.attach_volume, Luks.open_volume, Luks.is_luks, mBind, mCatch, mPure, mRaise,
    executeOnce_run, accepts_codes0, h0, h1]

lemma luks_attach_run_exit1_notluks (env : Env) (s : EncState) (key : List Nat)
    (cipher key_size : Option String) (i : Nat)
    (h0 : (env.responses i).exit_code = 1)
    (h1 : (env.responses (i + 1)).exit_code ≠ 0) :
    Luks.attach_volume s key cipher key_size env i =
      consTrace ⟨Luks.luksOpen_cmd s (Cryptsetup.get_passphrase key), 1⟩
        (consTrace ⟨Luks.isLuks_cmd s, (env.responses (i + 1)).exit_code⟩
          (formatRest s key cipher key_size env (i + 2))) := by
  rcases hf : Luks.format_volume s (Cryptsetup.get_passphrase key) cipher key_size
      env (i + 2) with ⟨r, t, j⟩
  cases r with
  | error e =>
    simp [Luks.attach_volume, formatRest, ln_step, consTrace, Luks.open_volume, Luks.is_luks,
      mBind, mCatch, mPure, mRaise, executeOnce_run, accepts_codes0, h0, h1, hf]
  | ok a =>
    by_cases h2 : (env.responses j).exit_code = 0 <;>
      simp [Luks.attach_volume, formatRest, ln_step, consTrace, Luks.open_volume, Luks.is_luks,
        mBind, mCatch, mPure, mRaise, executeOnce_run, accepts_codes0, h0, h1, hf, h2]

lemma luks_attach_run_exit2 (env : Env) (s : EncState) (key : List Nat)
    (cipher key_size : Option String) (i : Nat)
    (h0 : (env.responses i).exit_code = 2) :
    Luks.attach_volume s key cipher key_size env i =
      consTrace ⟨Luks.luksOpen_cmd s (Cryptsetup.get_passphrase key), 2⟩
        (exit2Rest s key env (i + 1)) := by
  rcases hu : Luks.unmangle_volume s key (Cryptsetup.get_passphrase key) env (i + 1)
    with ⟨r, t, j⟩
  cases r with
  | error e =>
    simp [Luks.attach_volume, exit2Rest, ln_step, consTrace, Luks.open_volume,
      mBind, mCatch, mPure, mRaise, executeOnce_run, accepts_codes0, h0, hu]
  | ok a =>
    by_cases h2 : (env.responses j).exit_code = 0 <;>
      simp [Luks.attach_volume, exit2Rest, ln_step, consTrace, Luks.open_volume,
        mBind, mCatch, mPure, mRaise, executeOnce_run, accepts_codes0, h0, hu, h2]

lemma luks_attach_run_other (env : Env) (s : EncState) (key : List Nat)
    (cipher key_size : Option String) (i : Nat)
    (h0 : (env.responses i).exit_code ≠ 0) (h1 : (env.responses i).exit_code ≠ 1)
    (h2 : (env.responses i).exit_code ≠ 2) :
    Luks.attach_volume s key cipher key_size env i =
      (Except.error ⟨(env.responses i).exit_code, (env.responses i).stderr⟩,
        [⟨Luks.luksOpen_cmd s (Cryptsetup.get_passphrase key),
            (env.responses i).exit_code⟩], i + 1) := by
  simp [Luks.attach_volume, Luks.open_volume, mBind, mCatch, mPure, mRaise,
    executeOnce_run, accepts_codes0, h0, h1, h2]

/-! ### Format-branch analysis (C4) -/

/-- An entry records a `luksFormat` invocation: only the format command's argv
begins `cryptsetup --batch-mode`. -/
def isFormatEntry (en : TraceEntry) : Prop :=
  en.cmd.argv.take 2 = ["cryptsetup", "--batch-mode"]

instance : DecidablePred isFormatEntry := fun en => by
  unfold isFormatEntry
  infer_instance

lemma nf_executeOnce (cmd : Cmd) (chk : ExitCheck)
    (h : cmd.argv.take 2 ≠ ["cryptsetup", "--batch-mode"]) :
    TraceAll (fun en => ¬ isFormatEntry en) (executeOnce cmd chk) :=
  traceAll_executeOnce _ cmd chk (fun _ => h)

lemma nf_luks_open (s : EncState) (pass : String) :
    TraceAll (fun en => ¬ isFormatEntry en) (Luks.open_volume s pass) := by
  apply traceAll_mBind
  · exact nf_executeOnce _ _ (by simp [Luks.luksOpen_cmd])
  · intro a; exact traceAll_mPure _ _

lemma nf_get_backend_device (s : EncState) :
    TraceAll (fun en => ¬ isFormatEntry en) (Cryptsetup.get_backend_device s) := by
  apply traceAll_mBind
  · exact nf_executeOnce _ _ (by simp [Cryptsetup.status_cmd])
  · intro a
    apply traceAll_mBind
    · exact traceAll_mAsks _ _
    · intro ex; exact traceAll_mPure _ _

lemma nf_restore_device_links (d : String) :
    TraceAll (fun en => ¬ isFormatEntry en) (Cryptsetup.restore_device_links d) := by
  apply traceAll_mBind
  · exact nf_executeOnce _ _ (by simp [Cryptsetup.udev_cmd])
  · intro a; exact traceAll_mPure _ _

lemma nf_luks_close (s : EncState) :
    TraceAll (fun en => ¬ isFormatEntry en) (Luks.close_volume s) := by
  apply traceAll_mBind
  · exact nf_get_backend_device s
  · intro a
    cases a with
    | none => exact traceAll_mPure _ _
    | some d =>
      apply traceAll_mBind
      · exact traceAll_executeAttempts _ _ _ (fun _ => by simp [isFormatEntry, Luks.luksClose_cmd]) 3
      · intro b; exact nf_restore_device_links d

lemma nf_unmangle (s : EncState) (key : List Nat) (pass : String) :
    TraceAll (fun en => ¬ isFormatEntry en) (Luks.unmangle_volume s key pass) := by
  apply traceAll_mBind
  · exact nf_luks_open _ _
  intro a
  apply traceAll_mBind
  · exact nf_luks_close s
  intro b
  apply traceAll_mBind
  · exact nf_executeOnce _ _ (by simp [Luks.addKey_cmd])
  intro c
  apply traceAll_mBind
  · exact nf_luks_open _ _
  intro d
  apply traceAll_mBind
  · exact nf_luks_close s
  intro e
  apply traceAll_mBind
  · exact nf_executeOnce _ _ (by simp [Luks.removeKey_cmd])
  intro f
  exact traceAll_mPure _ _

lemma nf_ln_step (s : EncState) :
    TraceAll (fun en => ¬ isFormatEntry en) (ln_step s) := by
  apply traceAll_mBind
  · exact nf_executeOnce _ _ (by simp [Cryptsetup.ln_cmd])
  · intro a; exact traceAll_mPure _ _

lemma nf_exit2Rest (s : EncState) (key : List Nat) :
    TraceAll (fun en => ¬ isFormatEntry en) (exit2Rest s key) := by
  apply traceAll_mBind
  · apply traceAll_mBind
    · exact nf_unmangle _ _ _
    · intro a; exact nf_luks_open _ _
  · intro a; exact nf_ln_step s

lemma mem_trace_mBind_left {α β : Type} (x : M α) (f : α → M β) (env : Env) (i : Nat)
    (en : TraceEntry) (h : en ∈ (x env i).2.1) : en ∈ (mBind x f env i).2.1 := by
  unfold mBind
  rcases hx : x env i with ⟨r, t, j⟩
  rw [hx] at h
  cases r with
  | error e => simpa using h
  | ok a =>
    rcases hf : f a env j with ⟨r2, t2, k⟩
    simp at h ⊢
    exact Or.inl h

lemma executeAttempts_head_mem : ∀ (n : Nat) (cmd : Cmd) (chk : ExitCheck) (env : Env)
    (i : Nat), (⟨cmd, (env.responses i).exit_code⟩ : TraceEntry)
      ∈ (executeAttempts n cmd chk env i).2.1
  | 0, cmd, chk, env, i => by rw [executeAttempts, executeOnce_run]; simp
  | 1, cmd, chk, env, i => by rw [executeAttempts, executeOnce_run]; simp
  | n + 2, cmd, chk, env, i => by
    unfold executeAttempts
    rw [executeOnce_run]
    by_cases h : chk.accepts (env.responses i).exit_code <;> simp [h]

lemma formatRest_has_format (s : EncState) (key : List Nat)
    (cipher key_size : Option String) (env : Env) (i : Nat) :
    ∃ en ∈ (formatRest s key cipher key_size env i).2.1, isFormatEntry en := by
  refine ⟨⟨Luks.format_cmd s (Cryptsetup.get_passphrase key) cipher key_size,
    (env.responses i).exit_code⟩, ?_, by simp [isFormatEntry, Luks.format_cmd]⟩
  unfold formatRest
  apply mem_trace_mBind_left
  apply mem_trace_mBind_left
  unfold Luks.format_volume
  apply mem_trace_mBind_left
  exact executeAttempts_head_mem 3 _ _ env i

/-- C4: in `LuksEncryptor.attach_volume` the format-on-first-use branch fires
iff the initial open fails with exit code 1 and the `isLuks` header check
fails (device not LUKS); in that branch one format is followed by exactly one
open; when `isLuks` succeeds the exit-1 failure propagates unchanged and no
format is issued. -/
theorem luks_attach_format_branch_iff (env : Env) (s : EncState) (key : List Nat)
    (cipher key_size : Option String) (i : Nat) :
    ((∃ en ∈ (Luks.attach_volume s key cipher key_size env i).2.1, isFormatEntry en)
      ↔ ((env.responses i).exit_code = 1 ∧ (env.responses (i + 1)).exit_code ≠ 0))
    ∧ ((env.responses i).exit_code = 1 → (env.responses (i + 1)).exit_code ≠ 0 →
      (env.responses (i + 2)).exit_code = 0 →
      ((env.responses (i + 3)).exit_code = 0 →
        Luks.attach_volume s key cipher key_size env i =
          ((if (env.responses (i + 4)).exit_code = 0 then Except.ok ()
            else Except.error ⟨(env.responses (i + 4)).exit_code,
                  (env.responses (i + 4)).stderr⟩),
            [⟨Luks.luksOpen_cmd s (Cryptsetup.get_passphrase key), 1⟩,
              ⟨Luks.isLuks_cmd s, (env.responses (i + 1)).exit_code⟩,
              ⟨Luks.format_cmd s (Cryptsetup.get_passphrase key) cipher key_size, 0⟩,
              ⟨Luks.luksOpen_cmd s (Cryptsetup.get_passphrase key), 0⟩,
              ⟨Cryptsetup.ln_cmd s, (env.responses (i + 4)).exit_code⟩], i + 5))
      ∧ ((env.responses (i + 3)).exit_code ≠ 0 →
        Luks.attach_volume s key cipher key_size env i =
          (Except.error ⟨(env.responses (i + 3)).exit_code, (env.responses (i + 3)).stderr⟩,
            [⟨Luks.luksOpen_cmd s (Cryptsetup.get_passphrase key), 1⟩,
              ⟨Luks.isLuks_cmd s, (env.responses (i + 1)).exit_code⟩,
              ⟨Luks.format_cmd s (Cryptsetup.get_passphrase key) cipher key_size, 0⟩,
              ⟨Luks.luksOpen_cmd s (Cryptsetup.get_passphrase key),
                (env.responses (i + 3)).exit_code⟩], i + 4)))
    ∧ ((env.responses i).exit_code = 1 → (env.responses (i + 1)).exit_code = 0 →
      Luks.attach_volume s key cipher key_size env i =
        (Except.error ⟨1, (env.responses i).stderr⟩,
          [⟨Luks.luksOpen_cmd s (Cryptsetup.get_passphrase key), 1⟩,
            ⟨Luks.isLuks_cmd s, 0⟩], i + 2)) := by
  refine ⟨⟨?_, ?_⟩, ?_, ?_⟩
  · rintro ⟨en, hen, hfmt⟩
    by_cases h0 : (env.responses i).exit_code = 0
    · rw [luks_attach_run_ok env s key cipher key_size i h0] at hen
      simp at hen
      rcases hen with hen | hen <;> subst hen <;>
        simp [isFormatEntry, Luks.luksOpen_cmd, Cryptsetup.ln_cmd] at hfmt
    by_cases h1 : (env.responses i).exit_code = 1
    · by_cases h1b : (env.responses (i + 1)).exit_code = 0
      · rw [luks_attach_run_exit1_isluks env s key cipher key_size i h1 h1b] at hen
        simp at hen
        rcases hen with hen | hen <;> subst hen <;>
          simp [isFormatEntry, Luks.luksOpen_cmd, Luks.isLuks_cmd] at hfmt
      · exact ⟨h1, h1b⟩
    by_cases h2 : (env.responses i).exit_code = 2
    · rw [luks_attach_run_exit2 env s key cipher key_size i h2] at hen
      simp [consTrace] at hen
      rcases hen with hen | hen
      · subst hen; simp [isFormatEntry, Luks.luksOpen_cmd] at hfmt
      · exact absurd hfmt (nf_exit2Rest s key env (i + 1) en hen)
    · rw [luks_attach_run_other env s key cipher key_size i h0 h1 h2] at hen
      simp at hen
      subst hen
      simp [isFormatEntry, Luks.luksOpen_cmd] at hfmt
  · rintro ⟨h1, h1b⟩
    rw [luks_attach_run_exit1_notluks env s key cipher key_size i h1 h1b]
    obtain ⟨en, hen, hf⟩ := formatRest_has_format s key cipher key_size env (i + 2)
    exact ⟨en, by simp [consTrace]; exact Or.inr (Or.inr hen), hf⟩
  · intro h1 h1b h2
    rw [luks_attach_run_exit1_notluks env s key cipher key_size i h1 h1b]
    have c2 : (ExitCheck.codes [0]).accepts (env.responses (i + 2)).exit_code = true := by
      simp [accepts_codes0, h2]
    constructor
    · intro h3
      by_cases h4 : (env.responses (i + 4)).exit_code = 0 <;>
        simp [formatRest, ln_step, consTrace, Luks.format_volume, Luks.open_volume,
          mBind, mPure, executeAttempts3_first_ok _ _ env (i + 2) c2, executeOnce_run,
          accepts_codes0, h2, h3, h4]
    · intro h3
      simp [formatRest, ln_step, consTrace, Luks.format_volume, Luks.open_volume,
        mBind, mPure, executeAttempts3_first_ok _ _ env (i + 2) c2, executeOnce_run,
        accepts_codes0, h2, h3]
  · exact luks_attach_run_exit1_isluks env s key cipher key_size i

def envFormatW : Env :=
  ⟨fun j => if j = 0 then ⟨1, "", "not open"⟩
    else if j = 1 then ⟨1, "", "not a LUKS device"⟩ else ⟨0, "", ""⟩, fun _ => true⟩

theorem luks_attach_format_branch_iff_witness :
    (envFormatW.responses 0).exit_code = 1
    ∧ (envFormatW.responses 1).exit_code ≠ 0
    ∧ (envFormatW.responses 2).exit_code = 0
    ∧ (envFormatW.responses 3).exit_code = 0
    ∧ Luks.attach_volume sW [0] none none envFormatW 0 =
        (Except.ok (),
          [⟨Luks.luksOpen_cmd sW (Cryptsetup.get_passphrase [0]), 1⟩,
            ⟨Luks.isLuks_cmd sW, 1⟩,
            ⟨Luks.format_cmd sW (Cryptsetup.get_passphrase [0]) none none, 0⟩,
            ⟨Luks.luksOpen_cmd sW (Cryptsetup.get_passphrase [0]), 0⟩,
            ⟨Cryptsetup.ln_cmd sW, 0⟩], 5) := by
  have h := (luks_attach_format_branch_iff envFormatW sW [0] none none 0).2.1
    (by decide) (by decide) (by decide)
  refine ⟨rfl, by decide, rfl, rfl, ?_⟩
  simpa using h.1 (by decide)

/-! ### Migration step order (C5) -/

/-- The migration's "main" key-handling commands: `luksOpen`, `luksAddKey`,
`luksRemoveKey` (the close sub-steps issue only status/luksClose/udev). -/
def mainStep (en : TraceEntry) : Bool :=
  (en.cmd.argv.take 2 == ["cryptsetup", "luksOpen"])
  || (en.cmd.argv.take 2 == ["cryptsetup", "luksAddKey"])
  || (en.cmd.argv.take 2 == ["cryptsetup", "luksRemoveKey"])

/-- The sequence of main commands in a trace, in order. -/
def mainCmds (t : List TraceEntry) : List Cmd := (t.filter mainStep).map TraceEntry.cmd

lemma mainCmds_append (a b : List TraceEntry) :
    mainCmds (a ++ b) = mainCmds a ++ mainCmds b := by
  simp [mainCmds]

lemma luks_open_run (s : EncState) (pass : String) (env : Env) (i : Nat) :
    Luks.open_volume s pass env i =
      ((if (env.responses i).exit_code = 0 then Except.ok ()
        else Except.error ⟨(env.responses i).exit_code, (env.responses i).stderr⟩),
        [⟨Luks.luksOpen_cmd s pass, (env.responses i).exit_code⟩], i + 1) := by
  by_cases h : (env.responses i).exit_code = 0 <;>
    simp [Luks.open_volume, mBind, mPure, executeOnce_run, accepts_codes0, h]

lemma notMain_close (s : EncState) :
    TraceAll (fun en => mainStep en = false) (Luks.close_volume s) := by
  apply traceAll_mBind
  · apply traceAll_mBind
    · exact traceAll_executeOnce _ _ _
        (fun e => by simp [mainStep, Cryptsetup.status_cmd])
    · intro a
      apply traceAll_mBind
      · exact traceAll_mAsks _ _
      · intro ex; exact traceAll_mPure _ _
  · intro a
    cases a with
    | none => exact traceAll_mPure _ _
    | some d =>
      apply traceAll_mBind
      · exact traceAll_executeAttempts _ _ _
          (fun e => by simp [mainStep, Luks.luksClose_cmd]) 3
      · intro b
        apply traceAll_mBind
        · exact traceAll_executeOnce _ _ _
            (fun e => by simp [mainStep, Cryptsetup.udev_cmd])
        · intro c; exact traceAll_mPure _ _

/-- When the computation fails, the failing command is the last one in the
trace and its recorded exit code is the surfaced one. -/
def ErrLast {α : Type} (m : M α) : Prop :=
  ∀ env i err, (m env i).1 = Except.error err →
    ∃ lastEn : TraceEntry,
      (m env i).2.1.getLast? = some lastEn ∧ lastEn.exit_code = err.exit_code

lemma errLast_mPure {α : Type} (a : α) : ErrLast (mPure a) := by
  intro env i err h
  simp [mPure] at h

lemma errLast_mAsks {α : Type} (f : Env → α) : ErrLast (mAsks f) := by
  intro env i err h
  simp [mAsks] at h

lemma errLast_executeOnce (cmd : Cmd) (chk : ExitCheck) : ErrLast (executeOnce cmd chk) := by
  intro env i err h
  rw [executeOnce_run] at h ⊢
  by_cases hc : chk.accepts (env.responses i).exit_code
  · simp [hc] at h
  · simp [hc] at h ⊢
    rw [← h]

lemma errLast_executeAttempts (cmd : Cmd) (chk : ExitCheck) :
    ∀ n, ErrLast (executeAttempts n cmd chk)
  | 0 => errLast_executeOnce cmd chk
  | 1 => errLast_executeOnce cmd chk
  | n + 2 => by
    intro env i err h
    rcases hxv : executeOnce cmd chk env i with ⟨r, t, j⟩
    cases r with
    | ok a =>
      have hun : executeAttempts (n + 2) cmd chk env i = (Except.ok a, t, j) := by
        simp only [executeAttempts, hxv]
      rw [hun] at h
      simp at h
    | error e =>
      rcases hrv : executeAttempts (n + 1) cmd chk env j with ⟨r2, t2, k⟩
      have hun : executeAttempts (n + 2) cmd chk env i = (r2, t ++ t2, k) := by
        simp only [executeAttempts, hxv, hrv]
      rw [hun] at h ⊢
      simp at h
      subst h
      obtain ⟨lastEn, hl, he⟩ := errLast_executeAttempts cmd chk (n + 1) env j err
        (by rw [hrv])
      rw [hrv] at hl
      simp at hl
      have ht2 : t2 ≠ [] := by
        intro hnil
        rw [hnil] at hl
        simp at hl
      refine ⟨lastEn, ?_, he⟩
      show (t ++ t2).getLast? = some lastEn
      rw [List.getLast?_append_of_ne_nil t ht2]
      exact hl

lemma errLast_mBind {α β : Type} (x : M α) (f : α → M β)
    (hx : ErrLast x) (hf : ∀ a, ErrLast (f a)) : ErrLast (mBind x f) := by
  intro env i err h
  rcases hxv : x env i with ⟨r, t, j⟩
  cases r with
  | error e =>
    have hun : mBind x f env i = (Except.error e, t, j) := by
      simp only [mBind, hxv]
    rw [hun] at h ⊢
    simp at h
    subst h
    obtain ⟨lastEn, hl, he⟩ := hx env i e (by rw [hxv])
    rw [hxv] at hl
    simp at hl
    exact ⟨lastEn, hl, he⟩
  | ok a =>
    rcases hfv : f a env j with ⟨r2, t2, k⟩
    have hun : mBind x f env i = (r2, t ++ t2, k) := by
      simp only [mBind, hxv, hfv]
    rw [hun] at h ⊢
    cases r2 with
    | ok b => simp at h
    | error e2 =>
      simp at h
      subst h
      obtain ⟨lastEn, hl, he⟩ := hf a env j e2 (by rw [hfv])
      rw [hfv] at hl
      simp at hl
      have ht2 : t2 ≠ [] := by
        intro hnil
        rw [hnil] at hl
        simp at hl
      refine ⟨lastEn, ?_, he⟩
      show (t ++ t2).getLast? = some lastEn
      rw [List.getLast?_append_of_ne_nil t ht2]
      exact hl

lemma errLast_restore (d : String) : ErrLast (Cryptsetup.restore_device_links d) :=
  errLast_mBind _ _ (errLast_executeOnce _ _) (fun _ => errLast_mPure _)

lemma errLast_luks_close (s : EncState) : ErrLast (Luks.close_volume s) := by
  apply errLast_mBind
  · apply errLast_mBind
    · exact errLast_executeOnce _ _
    · intro a
      exact errLast_mBind _ _ (errLast_mAsks _) (fun ex => errLast_mPure _)
  · intro a
    cases a with
    | none => exact errLast_mPure _
    | some d =>
      exact errLast_mBind _ _ (errLast_executeAttempts _ _ 3) (fun _ => errLast_restore d)

lemma errLast_luks_open (s : EncState) (pass : String) : ErrLast (Luks.open_volume s pass) :=
  errLast_mBind _ _ (errLast_executeOnce _ _) (fun _ => errLast_mPure _)

lemma errLast_unmangle (s : EncState) (key : List Nat) (pass : String) :
    ErrLast (Luks.unmangle_volume s key pass) := by
  unfold Luks.unmangle_volume
  refine errLast_mBind _ _ (errLast_luks_open _ _) (fun a => ?_)
  refine errLast_mBind _ _ (errLast_luks_close _) (fun b => ?_)
  refine errLast_mBind _ _ (errLast_executeOnce _ _) (fun c => ?_)
  refine errLast_mBind _ _ (errLast_luks_open _ _) (fun d => ?_)
  refine errLast_mBind _ _ (errLast_luks_close _) (fun e => ?_)
  exact errLast_mBind _ _ (errLast_executeOnce _ _) (fun f => errLast_mPure _)

lemma unmangle_run_cases (s : EncState) (key : List Nat) (pass : String) (env : Env)
    (i : Nat) :
    ((env.responses i).exit_code ≠ 0 ∧
      Luks.unmangle_volume s key pass env i =
        (Except.error ⟨(env.responses i).exit_code, (env.responses i).stderr⟩,
          [⟨Luks.luksOpen_cmd s (Cryptsetup.get_mangled_passphrase key),
            (env.responses i).exit_code⟩], i + 1))
    ∨ ((env.responses i).exit_code = 0 ∧ ∃ ec tc jc,
        Luks.close_volume s env (i + 1) = (Except.error ec, tc, jc) ∧
        Luks.unmangle_volume s key pass env i =
          (Except.error ec,
            ⟨Luks.luksOpen_cmd s (Cryptsetup.get_mangled_passphrase key), 0⟩ :: tc, jc))
    ∨ ((env.responses i).exit_code = 0 ∧ ∃ tc jc,
        Luks.close_volume s env (i + 1) = (Except.ok (), tc, jc) ∧
        (env.responses jc).exit_code ≠ 0 ∧
        Luks.unmangle_volume s key pass env i =
          (Except.error ⟨(env.responses jc).exit_code, (env.responses jc).stderr⟩,
            ⟨Luks.luksOpen_cmd s (Cryptsetup.get_mangled_passphrase key), 0⟩ ::
              (tc ++ [⟨Luks.addKey_cmd s (Cryptsetup.get_mangled_passphrase key) pass,
                (env.responses jc).exit_code⟩]), jc + 1))
    ∨ ((env.responses i).exit_code = 0 ∧ ∃ tc jc,
        Luks.close_volume s env (i + 1) = (Except.ok (), tc, jc) ∧
        (env.responses jc).exit_code = 0 ∧ (env.responses (jc + 1)).exit_code ≠ 0 ∧
        Luks.unmangle_volume s key pass env i =
          (Except.error ⟨(env.responses (jc + 1)).exit_code,
              (env.responses (jc + 1)).stderr⟩,
            ⟨Luks.luksOpen_cmd s (Cryptsetup.get_mangled_passphrase key), 0⟩ ::
              (tc ++ [⟨Luks.addKey_cmd s (Cryptsetup.get_mangled_passphrase key) pass, 0⟩,
                ⟨Luks.luksOpen_cmd s pass, (env.responses (jc + 1)).exit_code⟩]), jc + 2))
    ∨ ((env.responses i).exit_code = 0 ∧ ∃ tc jc ec2 tc2 jc2,
        Luks.close_volume s env (i + 1) = (Except.ok (), tc, jc) ∧
        (env.responses jc).exit_code = 0 ∧ (env.responses (jc + 1)).exit_code = 0 ∧
        Luks.close_volume s env (jc + 2) = (Except.error ec2, tc2, jc2) ∧
        Luks.unmangle_volume s key pass env i =
          (Except.error ec2,
            ⟨Luks.luksOpen_cmd s (Cryptsetup.get_mangled_passphrase key), 0⟩ ::
              (tc ++ [⟨Luks.addKey_cmd s (Cryptsetup.get_mangled_passphrase key) pass, 0⟩,
                ⟨Luks.luksOpen_cmd s pass, 0⟩] ++ tc2), jc2))
    ∨ ((env.responses i).exit_code = 0 ∧ ∃ tc jc tc2 jc2,
        Luks.close_volume s env (i + 1) = (Except.ok (), tc, jc) ∧
        (env.responses jc).exit_code = 0 ∧ (env.responses (jc + 1)).exit_code = 0 ∧
        Luks.close_volume s env (jc + 2) = (Except.ok (), tc2, jc2) ∧
        (env.responses jc2).exit_code ≠ 0 ∧
        Luks.unmangle_volume s key pass env i =
          (Except.error ⟨(env.responses jc2).exit_code, (env.responses jc2).stderr⟩,
            ⟨Luks.luksOpen_cmd s (Cryptsetup.get_mangled_passphrase key), 0⟩ ::
              (tc ++ [⟨Luks.addKey_cmd s (Cryptsetup.get_mangled_passphrase key) pass, 0⟩,
                ⟨Luks.luksOpen_cmd s pass, 0⟩] ++ tc2 ++
                [⟨Luks.removeKey_cmd s (Cryptsetup.get_mangled_passphrase key),
                  (env.responses jc2).exit_code⟩]), jc2 + 1))
    ∨ ((env.responses i).exit_code = 0 ∧ ∃ tc jc tc2 jc2,
        Luks.close_volume s env (i + 1) = (Except.ok (), tc, jc) ∧
        (env.responses jc).exit_code = 0 ∧ (env.responses (jc + 1)).exit_code = 0 ∧
        Luks.close_volume s env (jc + 2) = (Except.ok (), tc2, jc2) ∧
        (env.responses jc2).exit_code = 0 ∧
        Luks.unmangle_volume s key pass env i =
          (Except.ok (),
            ⟨Luks.luksOpen_cmd s (Cryptsetup.get_mangled_passphrase key), 0⟩ ::
              (tc ++ [⟨Luks.addKey_cmd s (Cryptsetup.get_mangled_passphrase key) pass, 0⟩,
                ⟨Luks.luksOpen_cmd s pass, 0⟩] ++ tc2 ++
                [⟨Luks.removeKey_cmd s (Cryptsetup.get_mangled_passphrase key), 0⟩]),
            jc2 + 1)) := by
  by_cases h0 : (env.responses i).exit_code = 0
  · rcases hc1 : Luks.close_volume s env (i + 1) with ⟨rc, tc, jc⟩
    cases rc with
    | error ec =>
      refine Or.inr (Or.inl ⟨h0, ec, tc, jc, rfl, ?_⟩)
      simp [Luks.unmangle_volume, mBind, mPure, luks_open_run, h0, hc1]
    | ok u1 =>
      cases u1
      by_cases hak : (env.responses jc).exit_code = 0
      · by_cases hop2 : (env.responses (jc + 1)).exit_code = 0
        · rcases hc2 : Luks.close_volume s env (jc + 2) with ⟨rc2, tc2, jc2⟩
          cases rc2 with
          | error ec2 =>
            refine Or.inr (Or.inr (Or.inr (Or.inr (Or.inl
              ⟨h0, tc, jc, ec2, tc2, jc2, rfl, hak, hop2, hc2, ?_⟩))))
            simp [Luks.unmangle_volume, mBind, mPure, luks_open_run, executeOnce_run,
              accepts_codes0, h0, hc1, hak, hop2, hc2]
          | ok u2 =>
            cases u2
            by_cases hrk : (env.responses jc2).exit_code = 0
            · refine Or.inr (Or.inr (Or.inr (Or.inr (Or.inr (Or.inr
                ⟨h0, tc, jc, tc2, jc2, rfl, hak, hop2, hc2, hrk, ?_⟩)))))
              simp [Luks.unmangle_volume, mBind, mPure, luks_open_run, executeOnce_run,
                accepts_codes0, h0, hc1, hak, hop2, hc2, hrk]
            · refine Or.inr (Or.inr (Or.inr (Or.inr (Or.inr (Or.inl
                ⟨h0, tc, jc, tc2, jc2, rfl, hak, hop2, hc2, hrk, ?_⟩)))))
              simp [Luks.unmangle_volume, mBind, mPure, luks_open_run, executeOnce_run,
                accepts_codes0, h0, hc1, hak, hop2, hc2, hrk]
        · refine Or.inr (Or.inr (Or.inr (Or.inl ⟨h0, tc, jc, rfl, hak, hop2, ?_⟩)))
          simp [Luks.unmangle_volume, mBind, mPure, luks_open_run, executeOnce_run,
            accepts_codes0, h0, hc1, hak, hop2]
      · refine Or.inr (Or.inr (Or.inl ⟨h0, tc, jc, rfl, hak, ?_⟩))
        simp [Luks.unmangle_volume, mBind, mPure, luks_open_run, executeOnce_run,
          accepts_codes0, h0, hc1, hak]
  · refine Or.inl ⟨h0, ?_⟩
    simp [Luks.unmangle_volume, mBind, mPure, luks_open_run, h0]

/-- The migration's intended main-command order: open with the mangled
passphrase, add the current key, verify-open with the current passphrase,
remove the mangled key. -/
def migrationSteps (s : EncState) (key : List Nat) : List Cmd :=
  [Luks.luksOpen_cmd s (Cryptsetup.get_mangled_passphrase key),
    Luks.addKey_cmd s (Cryptsetup.get_mangled_passphrase key) (Cryptsetup.get_passphrase key),
    Luks.luksOpen_cmd s (Cryptsetup.get_passphrase key),
    Luks.removeKey_cmd s (Cryptsetup.get_mangled_passphrase key)]

lemma mainCmds_nil : mainCmds [] = [] := rfl

lemma mainCmds_cons_true (en : TraceEntry) (t : List TraceEntry) (h : mainStep en = true) :
    mainCmds (en :: t) = en.cmd :: mainCmds t := by
  simp [mainCmds, List.filter_cons, h]

lemma mainCmds_cons_false (en : TraceEntry) (t : List TraceEntry) (h : mainStep en = false) :
    mainCmds (en :: t) = mainCmds t := by
  simp [mainCmds, List.filter_cons, h]

lemma mainCmds_nil_of (t : List TraceEntry) (h : ∀ en ∈ t, mainStep en = false) :
    mainCmds t = [] := by
  unfold mainCmds
  rw [List.filter_eq_nil.mpr (by intro en hen; simp [h en hen])]
  rfl

lemma mainStep_luksOpen (s : EncState) (p : String) (e : Int) :
    mainStep ⟨Luks.luksOpen_cmd s p, e⟩ = true := by
  simp [mainStep, Luks.luksOpen_cmd]

lemma mainStep_addKey (s : EncState) (m p : String) (e : Int) :
    mainStep ⟨Luks.addKey_cmd s m p, e⟩ = true := by
  simp [mainStep, Luks.addKey_cmd]

lemma mainStep_removeKey (s : EncState) (m : String) (e : Int) :
    mainStep ⟨Luks.removeKey_cmd s m, e⟩ = true := by
  simp [mainStep, Luks.removeKey_cmd]

lemma close_trace_notMain (s : EncState) (env : Env) (i : Nat) {r : Except PError Unit}
    {tc : List TraceEntry} {jc : Nat} (hc : Luks.close_volume s env i = (r, tc, jc)) :
    ∀ en ∈ tc, mainStep en = false := by
  intro en hen
  apply notMain_close s env i en
  rw [hc]
  exact hen

lemma notRemoveKey_of_notMain (en : TraceEntry) (h : mainStep en = false) :
    en.cmd.argv.take 2 ≠ ["cryptsetup", "luksRemoveKey"] := by
  intro hc
  simp [mainStep, hc] at h

/-- C5: the legacy-passphrase migration (entered when `attach_volume`'s first
open exits 2) issues its main key commands in the fixed order open-mangled,
luksAddKey(current), open-current, luksRemoveKey(mangled); every failing
sub-step aborts the remainder and surfaces as the error (the failing command
is the last one issued); if `luksAddKey` fails, no `luksRemoveKey` command is
ever issued. -/
theorem luks_unmangle_step_order (env : Env) (s : EncState) (key : List Nat)
    (cipher key_size : Option String) (i : Nat) :
    (∃ k ≤ 4, mainCmds
        (Luks.unmangle_volume s key (Cryptsetup.get_passphrase key) env i).2.1
        = (migrationSteps s key).take k)
    ∧ ((Luks.unmangle_volume s key (Cryptsetup.get_passphrase key) env i).1 =
          Except.ok () →
        mainCmds (Luks.unmangle_volume s key (Cryptsetup.get_passphrase key) env i).2.1
          = migrationSteps s key)
    ∧ (∀ e : Int,
        (⟨Luks.addKey_cmd s (Cryptsetup.get_mangled_passphrase key)
            (Cryptsetup.get_passphrase key), e⟩ : TraceEntry)
          ∈ (Luks.unmangle_volume s key (Cryptsetup.get_passphrase key) env i).2.1 →
        e ≠ 0 →
        ((∀ en ∈ (Luks.unmangle_volume s key (Cryptsetup.get_passphrase key) env i).2.1,
            en.cmd.argv.take 2 ≠ ["cryptsetup", "luksRemoveKey"])
          ∧ ∃ st, (Luks.unmangle_volume s key (Cryptsetup.get_passphrase key) env i).1 =
              Except.error ⟨e, st⟩))
    ∧ (∀ err, (Luks.unmangle_volume s key (Cryptsetup.get_passphrase key) env i).1 =
          Except.error err →
        ∃ lastEn, (Luks.unmangle_volume s key (Cryptsetup.get_passphrase key) env i).2.1.getLast?
            = some lastEn ∧ lastEn.exit_code = err.exit_code)
    ∧ ((env.responses i).exit_code = 2 →
        Luks.attach_volume s key cipher key_size env i =
          consTrace ⟨Luks.luksOpen_cmd s (Cryptsetup.get_passphrase key), 2⟩
            (exit2Rest s key env (i + 1))) := by
  refine ⟨?_, ?_, ?_, errLast_unmangle s key (Cryptsetup.get_passphrase key) env i,
    luks_attach_run_exit2 env s key cipher key_size i⟩
  · rcases unmangle_run_cases s key (Cryptsetup.get_passphrase key) env i with
      ⟨h0, hu⟩ | ⟨h0, ec, tc, jc, hc1, hu⟩ | ⟨h0, tc, jc, hc1, hak, hu⟩ |
      ⟨h0, tc, jc, hc1, hak, hop2, hu⟩ | ⟨h0, tc, jc, ec2, tc2, jc2, hc1, hak, hop2, hc2, hu⟩ |
      ⟨h0, tc, jc, tc2, jc2, hc1, hak, hop2, hc2, hrk, hu⟩ |
      ⟨h0, tc, jc, tc2, jc2, hc1, hak, hop2, hc2, hrk, hu⟩
    · exact ⟨1, by norm_num, by
        rw [hu]
        simp [mainCmds_cons_true, mainStep_luksOpen, mainCmds_nil, migrationSteps]⟩
    · exact ⟨1, by norm_num, by
        rw [hu]
        simp [mainCmds_cons_true, mainStep_luksOpen, migrationSteps,
          mainCmds_nil_of tc (close_trace_notMain s env (i + 1) hc1)]⟩
    · exact ⟨2, by norm_num, by
        rw [hu]
        simp [mainCmds_cons_true, mainCmds_append, mainStep_luksOpen, mainStep_addKey,
          mainCmds_nil, migrationSteps,
          mainCmds_nil_of tc (close_trace_notMain s env (i + 1) hc1)]⟩
    · exact ⟨3, by norm_num, by
        rw [hu]
        simp [mainCmds_cons_true, mainCmds_append, mainStep_luksOpen, mainStep_addKey,
          mainCmds_nil, migrationSteps,
          mainCmds_nil_of tc (close_trace_notMain s env (i + 1) hc1)]⟩
    · exact ⟨3, by norm_num, by
        rw [hu]
        simp [mainCmds_cons_true, mainCmds_append, mainStep_luksOpen, mainStep_addKey,
          mainCmds_nil, migrationSteps,
          mainCmds_nil_of tc (close_trace_notMain s env (i + 1) hc1),
          mainCmds_nil_of tc2 (close_trace_notMain s env (jc + 2) hc2)]⟩
    · exact ⟨4, by norm_num, by
        rw [hu]
        simp [mainCmds_cons_true, mainCmds_append, mainStep_luksOpen, mainStep_addKey,
          mainStep_removeKey, mainCmds_nil, migrationSteps,
          mainCmds_nil_of tc (close_trace_notMain s env (i + 1) hc1),
          mainCmds_nil_of tc2 (close_trace_notMain s env (jc + 2) hc2)]⟩
    · exact ⟨4, by norm_num, by
        rw [hu]
        simp [mainCmds_cons_true, mainCmds_append, mainStep_luksOpen, mainStep_addKey,
          mainStep_removeKey, mainCmds_nil, migrationSteps,
          mainCmds_nil_of tc (close_trace_notMain s env (i + 1) hc1),
          mainCmds_nil_of tc2 (close_trace_notMain s env (jc + 2) hc2)]⟩
  · intro hok
    rcases unmangle_run_cases s key (Cryptsetup.get_passphrase key) env i with
      ⟨h0, hu⟩ | ⟨h0, ec, tc, jc, hc1, hu⟩ | ⟨h0, tc, jc, hc1, hak, hu⟩ |
      ⟨h0, tc, jc, hc1, hak, hop2, hu⟩ | ⟨h0, tc, jc, ec2, tc2, jc2, hc1, hak, hop2, hc2, hu⟩ |
      ⟨h0, tc, jc, tc2, jc2, hc1, hak, hop2, hc2, hrk, hu⟩ |
      ⟨h0, tc, jc, tc2, jc2, hc1, hak, hop2, hc2, hrk, hu⟩
    · rw [hu] at hok; simp at hok
    · rw [hu] at hok; simp at hok
    · rw [hu] at hok; simp at hok
    · rw [hu] at hok; simp at hok
    · rw [hu] at hok; simp at hok
    · rw [hu] at hok; simp at hok
    · rw [hu]
      simp [mainCmds_cons_true, mainCmds_append, mainStep_luksOpen, mainStep_addKey,
        mainStep_removeKey, mainCmds_nil, migrationSteps,
        mainCmds_nil_of tc (close_trace_notMain s env (i + 1) hc1),
        mainCmds_nil_of tc2 (close_trace_notMain s env (jc + 2) hc2)]
  · intro e hmem hne
    rcases unmangle_run_cases s key (Cryptsetup.get_passphrase key) env i with
      ⟨h0, hu⟩ | ⟨h0, ec, tc, jc, hc1, hu⟩ | ⟨h0, tc, jc, hc1, hak, hu⟩ |
      ⟨h0, tc, jc, hc1, hak, hop2, hu⟩ | ⟨h0, tc, jc, ec2, tc2, jc2, hc1, hak, hop2, hc2, hu⟩ |
      ⟨h0, tc, jc, tc2, jc2, hc1, hak, hop2, hc2, hrk, hu⟩ |
      ⟨h0, tc, jc, tc2, jc2, hc1, hak, hop2, hc2, hrk, hu⟩
    · rw [hu] at hmem
      simp [Luks.addKey_cmd, Luks.luksOpen_cmd] at hmem
    · rw [hu] at hmem
      simp [Luks.addKey_cmd, Luks.luksOpen_cmd] at hmem
      have := close_trace_notMain s env (i + 1) hc1 _ hmem
      simp [mainStep] at this
    · rw [hu] at hmem
      simp [Luks.addKey_cmd, Luks.luksOpen_cmd] at hmem
      rcases hmem with hmem | heq
      · have := close_trace_notMain s env (i + 1) hc1 _ hmem
        simp [mainStep] at this
      · constructor
        · rw [hu]
          intro en hen
          simp at hen
          rcases hen with hen | hen | hen
          · subst hen; simp [Luks.luksOpen_cmd]
          · exact notRemoveKey_of_notMain en (close_trace_notMain s env (i + 1) hc1 en hen)
          · subst hen; simp [Luks.addKey_cmd]
        · refine ⟨(env.responses jc).stderr, ?_⟩
          rw [hu, heq]
    · rw [hu] at hmem
      simp [Luks.addKey_cmd, Luks.luksOpen_cmd] at hmem
      rcases hmem with hmem | heq
      · have := close_trace_notMain s env (i + 1) hc1 _ hmem
        simp [mainStep] at this
      · exact absurd heq hne
    · rw [hu] at hmem
      simp [Luks.addKey_cmd, Luks.luksOpen_cmd] at hmem
      rcases hmem with hmem | heq | hmem
      · have := close_trace_notMain s env (i + 1) hc1 _ hmem
        simp [mainStep] at this
      · exact absurd heq hne
      · have := close_trace_notMain s env (jc + 2) hc2 _ hmem
        simp [mainStep] at this
    · rw [hu] at hmem
      simp [Luks.addKey_cmd, Luks.luksOpen_cmd, Luks.removeKey_cmd] at hmem
      rcases hmem with hmem | heq | hmem
      · have := close_trace_notMain s env (i + 1) hc1 _ hmem
        simp [mainStep] at this
      · exact absurd heq hne
      · have := close_trace_notMain s env (jc + 2) hc2 _ hmem
        simp [mainStep] at this
    · rw [hu] at hmem
      simp [Luks.addKey_cmd, Luks.luksOpen_cmd, Luks.removeKey_cmd] at hmem
      rcases hmem with hmem | heq | hmem
      · have := close_trace_notMain s env (i + 1) hc1 _ hmem
        simp [mainStep] at this
      · exact absurd heq hne
      · have := close_trace_notMain s env (jc + 2) hc2 _ hmem
        simp [mainStep] at this

def envMigrW : Env :=
  ⟨fun j => if j = 1 || j = 4 then ⟨4, "", ""⟩ else ⟨0, "", ""⟩, fun _ => true⟩

theorem luks_unmangle_step_order_witness :
    (Luks.unmangle_volume sW [0] (Cryptsetup.get_passphrase [0]) envMigrW 0).1 = Except.ok ()
    ∧ mainCmds (Luks.unmangle_volume sW [0] (Cryptsetup.get_passphrase [0]) envMigrW 0).2.1
        = migrationSteps sW [0] := by
  have h := (luks_unmangle_step_order envMigrW sW [0] none none 0).2.1
  exact ⟨rfl, h rfl⟩

/-! ### Passphrase transport (C7) -/

/-- The strings that may legitimately appear in an argv of a
passphrase-supplying command: fixed tool words and flags, the device names
from the encryptor state, and the caller-supplied cipher/key-size values. -/
def allowedList (s : EncState) (cipher key_size : Option String) : List String :=
  ["cryptsetup", "create", "luksOpen", "--batch-mode", "luksFormat", "--key-file=-",
    "--cipher", "--key-size", "luksAddKey", "luksRemoveKey", s.dev_name, s.dev_path]
    ++ Cryptsetup.optArgs "--cipher" cipher ++ Cryptsetup.optArgs "--key-size" key_size

def argvAllowed (s : EncState) (cipher key_size : Option String) (x : String) : Prop :=
  x ∈ allowedList s cipher key_size

instance (s : EncState) (cipher key_size : Option String) (x : String) :
    Decidable (argvAllowed s cipher key_size x) := by
  unfold argvAllowed
  infer_instance

/-- The amended stdin contract for one trace entry: if the command carries a
stdin payload, then either its argv has the explicit `--key-file=-` flag or it
is one of the two key-slot commands (which feed prompts over stdin without
the flag), and every argv element is an allowed non-passphrase string. -/
def stdinPropOk (s : EncState) (cipher key_size : Option String) (en : TraceEntry) : Prop :=
  en.cmd.process_input.isSome = true →
    (("--key-file=-" ∈ en.cmd.argv
        ∨ en.cmd.argv.take 2 = ["cryptsetup", "luksAddKey"]
        ∨ en.cmd.argv.take 2 = ["cryptsetup", "luksRemoveKey"])
      ∧ ∀ x ∈ en.cmd.argv, argvAllowed s cipher key_size x)

lemma stdin_noInput (s : EncState) (cipher key_size : Option String) (cmd : Cmd)
    (h : cmd.process_input = none) (e : Int) :
    stdinPropOk s cipher key_size ⟨cmd, e⟩ := by
  intro hs
  simp [h] at hs

lemma stdin_raw_open (s : EncState) (cipher key_size : Option String) (p : String) (e : Int) :
    stdinPropOk s cipher key_size ⟨Cryptsetup.open_cmd s p cipher key_size, e⟩ := by
  intro hs
  refine ⟨Or.inl (by simp [Cryptsetup.open_cmd]), ?_⟩
  intro x hx
  cases cipher <;> cases key_size <;>
    simp [Cryptsetup.open_cmd, Cryptsetup.optArgs] at hx <;>
    simp [argvAllowed, allowedList, Cryptsetup.optArgs] <;>
    tauto

lemma stdin_luks_open (s : EncState) (cipher key_size : Option String) (p : String)
    (e : Int) : stdinPropOk s cipher key_size ⟨Luks.luksOpen_cmd s p, e⟩ := by
  intro hs
  refine ⟨Or.inl (by simp [Luks.luksOpen_cmd]), ?_⟩
  intro x hx
  simp [Luks.luksOpen_cmd] at hx
  simp [argvAllowed, allowedList]
  tauto

lemma stdin_format (s : EncState) (cipher key_size : Option String) (p : String) (e : Int) :
    stdinPropOk s cipher key_size ⟨Luks.format_cmd s p cipher key_size, e⟩ := by
  intro hs
  refine ⟨Or.inl (by simp [Luks.format_cmd]), ?_⟩
  intro x hx
  cases cipher <;> cases key_size <;>
    simp [Luks.format_cmd, Cryptsetup.optArgs] at hx <;>
    simp [argvAllowed, allowedList, Cryptsetup.optArgs] <;>
    tauto

lemma stdin_addKey (s : EncState) (cipher key_size : Option String) (m p : String)
    (e : Int) : stdinPropOk s cipher key_size ⟨Luks.addKey_cmd s m p, e⟩ := by
  intro hs
  refine ⟨Or.inr (Or.inl (by simp [Luks.addKey_cmd])), ?_⟩
  intro x hx
  simp [Luks.addKey_cmd] at hx
  simp [argvAllowed, allowedList]
  tauto

lemma stdin_removeKey (s : EncState) (cipher key_size : Option String) (m : String)
    (e : Int) : stdinPropOk s cipher key_size ⟨Luks.removeKey_cmd s m, e⟩ := by
  intro hs
  refine ⟨Or.inr (Or.inr (by simp [Luks.removeKey_cmd])), ?_⟩
  intro x hx
  simp [Luks.removeKey_cmd] at hx
  simp [argvAllowed, allowedList]
  tauto

lemma stdinPropOk_of_none (s : EncState) (cipher key_size : Option String)
    (en : TraceEntry) (h : en.cmd.process_input = none) :
    stdinPropOk s cipher key_size en := by
  intro hs
  simp [h] at hs

lemma traceAll_ite {α : Type} (P : TraceEntry → Prop) (c : Prop) [Decidable c]
    (x y : M α) (hx : TraceAll P x) (hy : TraceAll P y) :
    TraceAll P (if c then x else y) := by
  by_cases h : c
  · simpa [h] using hx
  · simpa [h] using hy

lemma traceAll_imp {α : Type} (P Q : TraceEntry → Prop) (m : M α)
    (h : TraceAll P m) (himp : ∀ en, P en → Q en) : TraceAll Q m :=
  fun env i en hen => himp en (h env i en hen)

lemma noInput_raw_close (s : EncState) :
    TraceAll (fun en => en.cmd.process_input = none) (Cryptsetup.close_volume s) := by
  apply traceAll_mBind
  · apply traceAll_mBind
    · apply traceAll_executeOnce
      intro e
      rfl
    · intro a
      apply traceAll_mBind
      · exact traceAll_mAsks _ _
      · intro ex; exact traceAll_mPure _ _
  · intro a
    cases a with
    | none => exact traceAll_mPure _ _
    | some d =>
      apply traceAll_mBind
      · apply traceAll_executeOnce
        intro e
        rfl
      · intro b
        apply traceAll_mBind
        · apply traceAll_executeOnce
          intro e
          rfl
        · intro c; exact traceAll_mPure _ _

lemma noInput_luks_close (s : EncState) :
    TraceAll (fun en => en.cmd.process_input = none) (Luks.close_volume s) := by
  apply traceAll_mBind
  · apply traceAll_mBind
    · apply traceAll_executeOnce
      intro e
      rfl
    · intro a
      apply traceAll_mBind
      · exact traceAll_mAsks _ _
      · intro ex; exact traceAll_mPure _ _
  · intro a
    cases a with
    | none => exact traceAll_mPure _ _
    | some d =>
      apply traceAll_mBind
      · apply traceAll_executeAttempts
        · intro e
          rfl
      · intro b
        apply traceAll_mBind
        · apply traceAll_executeOnce
          intro e
          rfl
        · intro c; exact traceAll_mPure _ _

lemma stdin_traceAll_raw_attach (s : EncState) (key : List Nat)
    (cipher key_size : Option String) :
    TraceAll (stdinPropOk s cipher key_size)
      (Cryptsetup.attach_volume s key cipher key_size) := by
  apply traceAll_mBind
  · apply traceAll_mCatch
    · apply traceAll_mBind
      · exact traceAll_executeOnce _ _ _ (stdin_raw_open s cipher key_size _)
      · intro a; exact traceAll_mPure _ _
    · intro e
      apply traceAll_ite
      · apply traceAll_mBind
        · exact traceAll_executeOnce _ _ _ (stdin_raw_open s cipher key_size _)
        · intro a; exact traceAll_mPure _ _
      · exact traceAll_mPure _ _
  · intro a
    apply traceAll_mBind
    · exact traceAll_executeOnce _ _ _
        (fun e => stdinPropOk_of_none s cipher key_size _ rfl)
    · intro b; exact traceAll_mPure _ _

lemma stdin_traceAll_unmangle (s : EncState) (key : List Nat) (pass : String)
    (cipher key_size : Option String) :
    TraceAll (stdinPropOk s cipher key_size) (Luks.unmangle_volume s key pass) := by
  have hc : TraceAll (stdinPropOk s cipher key_size) (Luks.close_volume s) :=
    traceAll_imp _ _ _ (noInput_luks_close s)
      (fun en h => stdinPropOk_of_none s cipher key_size en h)
  have ho : ∀ p, TraceAll (stdinPropOk s cipher key_size) (Luks.open_volume s p) := by
    intro p
    apply traceAll_mBind
    · exact traceAll_executeOnce _ _ _ (stdin_luks_open s cipher key_size p)
    · intro a; exact traceAll_mPure _ _
  apply traceAll_mBind
  · exact ho _
  intro a
  apply traceAll_mBind
  · exact hc
  intro b
  apply traceAll_mBind
  · exact traceAll_executeOnce _ _ _ (stdin_addKey s cipher key_size _ _)
  intro c
  apply traceAll_mBind
  · exact ho _
  intro d
  apply traceAll_mBind
  · exact hc
  intro e
  apply traceAll_mBind
  · exact traceAll_executeOnce _ _ _ (stdin_removeKey s cipher key_size _)
  intro f
  exact traceAll_mPure _ _

lemma stdin_traceAll_luks_attach (s : EncState) (key : List Nat)
    (cipher key_size : Option String) :
    TraceAll (stdinPropOk s cipher key_size)
      (Luks.attach_volume s key cipher key_size) := by
  have ho : ∀ p, TraceAll (stdinPropOk s cipher key_size) (Luks.open_volume s p) := by
    intro p
    apply traceAll_mBind
    · exact traceAll_executeOnce _ _ _ (stdin_luks_open s cipher key_size p)
    · intro a; exact traceAll_mPure _ _
  apply traceAll_mBind
  · apply traceAll_mCatch
    · exact ho _
    · intro e
      apply traceAll_mBind
      · apply traceAll_ite
        · apply traceAll_mBind
          · apply traceAll_mCatch
            · apply traceAll_mBind
              · exact traceAll_executeOnce _ _ _
                  (fun x => stdinPropOk_of_none s cipher key_size _ rfl)
              · intro a; exact traceAll_mPure _ _
            · intro e2; exact traceAll_mPure _ _
          · intro il; exact traceAll_mPure _ _
        · exact traceAll_mPure _ _
      · intro notLuks
        apply traceAll_ite
        · apply traceAll_mBind
          · apply traceAll_mBind
            · exact traceAll_executeAttempts _ _ _
                (stdin_format s cipher key_size _) 3
            · intro a; exact traceAll_mPure _ _
          · intro a; exact ho _
        · apply traceAll_ite
          · apply traceAll_mBind
            · exact stdin_traceAll_unmangle s key _ cipher key_size
            · intro a; exact ho _
          · exact traceAll_mRaise _ _
  · intro a
    apply traceAll_mBind
    · exact traceAll_executeOnce _ _ _
        (fun e => stdinPropOk_of_none s cipher key_size _ rfl)
    · intro b; exact traceAll_mPure _ _

/-- C7 (amended): in both attach flows, every invocation that supplies a
passphrase on stdin either carries the explicit `--key-file=-` flag (raw
open, LUKS open, LUKS format) or is one of the two key-slot commands
(`luksAddKey`/`luksRemoveKey`), which feed prompt answers over stdin without
the flag; no passphrase-supplying invocation places any string outside the
fixed/device/cipher argument set — hence never the passphrase itself — on its
command line; the close flows pass no stdin payload at all. -/
theorem passphrase_stdin_flag_amended (s : EncState) (key : List Nat)
    (cipher key_size : Option String) :
    TraceAll (stdinPropOk s cipher key_size) (Cryptsetup.attach_volume s key cipher key_size)
    ∧ TraceAll (stdinPropOk s cipher key_size) (Luks.attach_volume s key cipher key_size)
    ∧ TraceAll (fun en => en.cmd.process_input = none) (Cryptsetup.close_volume s)
    ∧ TraceAll (fun en => en.cmd.process_input = none) (Luks.close_volume s)
    ∧ (∀ pass : String, ¬ argvAllowed s cipher key_size pass →
        ∀ env i en, en ∈ (Luks.attach_volume s key cipher key_size env i).2.1 →
          en.cmd.process_input.isSome = true → pass ∉ en.cmd.argv)
    ∧ (∀ pass : String, ¬ argvAllowed s cipher key_size pass →
        ∀ env i en, en ∈ (Cryptsetup.attach_volume s key cipher key_size env i).2.1 →
          en.cmd.process_input.isSome = true → pass ∉ en.cmd.argv) := by
  refine ⟨stdin_traceAll_raw_attach s key cipher key_size,
    stdin_traceAll_luks_attach s key cipher key_size,
    noInput_raw_close s, noInput_luks_close s, ?_, ?_⟩
  · intro pass hna env i en hen hs hmem
    obtain ⟨_, hall⟩ := stdin_traceAll_luks_attach s key cipher key_size env i en hen hs
    exact hna (hall pass hmem)
  · intro pass hna env i en hen hs hmem
    obtain ⟨_, hall⟩ := stdin_traceAll_raw_attach s key cipher key_size env i en hen hs
    exact hna (hall pass hmem)

/-- Environment driving the LUKS attach through the full exit-2 migration. -/
def envC7 : Env :=
  ⟨fun j =>
    if j = 0 then ⟨2, "", "wrong passphrase"⟩
    else if j = 2 || j = 5 then ⟨4, "", ""⟩
    else ⟨0, "", ""⟩, fun _ => true⟩

/-- C7 counterexample: the `luksAddKey` invocation reached from
`LuksEncryptor.attach_volume` supplies a passphrase over stdin but its argv
does not contain the read-raw-stdin flag `--key-file=-`. -/
theorem addkey_lacks_keyfile_flag_cex :
    (⟨Luks.addKey_cmd sW (Cryptsetup.get_mangled_passphrase [0])
        (Cryptsetup.get_passphrase [0]), 0⟩ : TraceEntry)
      ∈ (Luks.attach_volume sW [0] none none envC7 0).2.1
    ∧ (Luks.addKey_cmd sW (Cryptsetup.get_mangled_passphrase [0])
        (Cryptsetup.get_passphrase [0])).process_input.isSome = true
    ∧ "--key-file=-" ∉ (Luks.addKey_cmd sW (Cryptsetup.get_mangled_passphrase [0])
        (Cryptsetup.get_passphrase [0])).argv := by
  exact ⟨by decide, rfl, by decide⟩

theorem passphrase_stdin_flag_amended_witness :
    (⟨Luks.luksOpen_cmd sW (Cryptsetup.get_passphrase [0]), 2⟩ : TraceEntry)
      ∈ (Luks.attach_volume sW [0] none none envC7 0).2.1
    ∧ (Luks.luksOpen_cmd sW (Cryptsetup.get_passphrase [0])).process_input.isSome = true
    ∧ ("--key-file=-" ∈ (Luks.luksOpen_cmd sW (Cryptsetup.get_passphrase [0])).argv
        ∨ (Luks.luksOpen_cmd sW (Cryptsetup.get_passphrase [0])).argv.take 2
            = ["cryptsetup", "luksAddKey"]
        ∨ (Luks.luksOpen_cmd sW (Cryptsetup.get_passphrase [0])).argv.take 2
            = ["cryptsetup", "luksRemoveKey"])
    ∧ (¬ argvAllowed sW none none "00")
    ∧ "00" ∉ (Luks.luksOpen_cmd sW (Cryptsetup.get_passphrase [0])).argv := by
  have hmem : (⟨Luks.luksOpen_cmd sW (Cryptsetup.get_passphrase [0]), 2⟩ : TraceEntry)
      ∈ (Luks.attach_volume sW [0] none none envC7 0).2.1 := by decide
  have hna : ¬ argvAllowed sW none none "00" := by decide
  obtain ⟨hflag, _⟩ :=
    (passphrase_stdin_flag_amended sW [0] none none).2.1 envC7 0 _ hmem rfl
  refine ⟨hmem, rfl, hflag, hna, ?_⟩
  exact (passphrase_stdin_flag_amended sW [0] none none).2.2.2.2.1 "00" hna envC7 0 _
    hmem rfl
